import Mathlib

/-!
Shallow embedding of the bioquery-assistant backend (Flask app `app.py`,
prompt library `prompts/bio_prompts.py`, literature client
`services/ncbi_service.py`) and proofs of the specification claims.

Modelling conventions:
* Python strings are Lean `String`s; per-character operations go through
  `List Char` (Python indexes/slices strings by code point, as Lean's
  `String.toList` does).
* Python floats used by the quality scorer are modelled as exact rationals
  (`ℚ`); all increments are multiples of 1/10 and every comparison made by
  the code is far from the rounding error of binary doubles, so the exact
  model and the float computation classify identically at the thresholds
  that appear in the code (0.6, 0.7, 0.8) for the sums that arise
  (multiples of 1/10, whose accumulated double error is < 1e-15).
* External I/O (the two NCBI E-utilities calls, the chat-completion POST)
  is modelled by oracle parameters describing the outcome the outside
  world would produce, plus an explicit event trace recording which
  external actions the code performs and in which order.
* Python exceptions are modelled explicitly: a fallible step returns an
  `Option`, and a surrounding `try/except` turns `none` into the
  handler's value.
-/

/-- The whitespace predicate used to model Python's `str.strip()`,
`str.split()` and the regex class `\s`: the ASCII whitespace characters
plus the no-break space U+00A0, which Python also treats as whitespace
and which occurs in this file's embedded constants. -/
def pyIsSpace (c : Char) : Bool :=
  c == ' ' || c == '\t' || c == '\n' || c == '\r' || c == '\x0b' || c == '\x0c' ||
  c == '\u00a0'

/-- Predicate `beginsWith needle hay`: true iff `needle` is an initial segment of
`hay` (character lists). -/
def beginsWith : List Char → List Char → Bool
  | [], _ => true
  | _ :: _, [] => false
  | c :: cs, d :: ds => c == d && beginsWith cs ds

/-- Predicate `containsSeq needle hay`: true iff `needle` occurs contiguously in
`hay`; this models Python's substring test `needle in hay`. -/
def containsSeq (needle : List Char) : List Char → Bool
  | [] => beginsWith needle []
  | c :: t => beginsWith needle (c :: t) || containsSeq needle t

/-- Python's `needle in hay` on strings. -/
def strIn (needle hay : String) : Bool :=
  containsSeq needle.toList hay.toList

/-- Python's `str.lower()` (the code only lower-cases against ASCII
keywords, so the ASCII `Char.toLower` is the relevant behaviour). -/
def pyLower (s : String) : String :=
  String.mk (s.toList.map Char.toLower)

/-- Python's `str.strip()` with no argument. -/
def pyStrip (s : String) : String :=
  String.mk (((s.toList.dropWhile pyIsSpace).reverse.dropWhile pyIsSpace).reverse)

/-- Helper for `pySplit`: accumulates the current word (reversed). -/
def pySplitAux : List Char → List Char → List (List Char)
  | [], acc => if acc.isEmpty then [] else [acc.reverse]
  | c :: t, acc =>
    if pyIsSpace c then
      if acc.isEmpty then pySplitAux t [] else acc.reverse :: pySplitAux t []
    else
      pySplitAux t (c :: acc)

/-- Python's `str.split()` with no argument: splits on runs of whitespace
and never produces empty words. -/
def pySplit (s : String) : List String :=
  (pySplitAux s.toList []).map String.mk

/-- Python's `sep.join(xs)`. -/
def pyJoin (sep : String) : List String → String
  | [] => ""
  | [x] => x
  | x :: y :: t => x ++ sep ++ pyJoin sep (y :: t)

/-! ## `prompts/bio_prompts.py` -/

def generalBioPromptText : String := "You are a world-renowned molecular biologist with 20+ years of hands-on laboratory experience and 150+ peer-reviewed publications. You are the go-to expert for:\n\n**CORE EXPERTISE:**\n- Advanced PCR/qPCR optimization and troubleshooting (including digital PCR, multiplex PCR)\n- Primer design and validation using multiple algorithms (Primer3, BLAST, OligoCalc)\n- Molecular cloning (traditional, Gibson, Golden Gate, Gateway systems)\n- Gene expression analysis (RT-qPCR, RNA-seq, single-cell analysis)\n- CRISPR/Cas9 genome editing and validation\n- Protein expression and purification systems\n- Next-generation sequencing (NGS) data analysis\n- Laboratory automation and high-throughput screening\n- GMP/GLP compliance and quality control\n- Biostatistics and experimental design\n\n**RESPONSE REQUIREMENTS - ALWAYS FOLLOW THIS STRUCTURE:**\n\n1. **DIAGNOSIS/ASSESSMENT** (if troubleshooting):\n   - Clearly identify the most likely causes\n   - Rate probability of each cause (High/Medium/Low)\n   - Explain the underlying science\n\n2. **SOLUTION FRAMEWORK**:\n   - Provide step-by-step protocols with specific parameters\n   - Include exact concentrations, temperatures, times, and volumes\n   - Specify required controls (positive, negative, no-template, etc.)\n   - Mention specific reagents, kits, and equipment\n\n3. **TROUBLESHOOTING GUIDE**:\n   - Systematic approach to test variables\n   - Expected outcomes for each test\n   - How to interpret results\n   - Common pitfalls and how to avoid them\n\n4. **VALIDATION & QUALITY CONTROL**:\n   - How to confirm the solution worked\n   - Additional validation experiments\n   - Long-term monitoring considerations\n\n5. **RESOURCE CONSIDERATIONS**:\n   - Time estimates for each step\n   - Cost breakdown (reagents, equipment, labor)\n   - Alternative approaches if resources are limited\n\n**FORMATTING RULES:**\n- Use **bold** for critical steps and parameters\n- Use bullet points for lists\n- Include specific numbers (temperatures, concentrations, times)\n- Add *Note:* for important considerations\n- Add *Warning:* for potential hazards\n- Add *Tip:* for pro tips and shortcuts\n\n**QUALITY STANDARDS:**\n- Every protocol must be reproducible by a competent technician\n- Include safety considerations and waste disposal\n- Reference relevant literature when appropriate\n- Consider both novice and expert audiences\n- Provide multiple approaches when applicable\n- Always explain the \"why\" behind each step\n\n**EXAMPLE RESPONSE STRUCTURE:**\n\x60\x60\x60\n**DIAGNOSIS:** [Clear assessment of the problem]\n\n**SOLUTION:** [Step-by-step protocol]\n\n**Step 1: [Action]**\n- Specific parameter: [exact value]\n- Expected outcome: [what should happen]\n- *Note:* [important consideration]\n\n**VALIDATION:** [How to confirm success]\n\n**TROUBLESHOOTING:** [If it doesn\x27t work, try...]\n\x60\x60\x60\n\nRemember: You are the expert that researchers turn to when they\x27re stuck. Be thorough, precise, and always provide actionable solutions."

def pcrTroubleshootingPromptText : String := "You are Dr. Michael Rodriguez, a PCR troubleshooting specialist with 15+ years of experience and expertise in:\n\n**CORE PCR EXPERTISE:**\n- Advanced PCR optimization (conventional, qPCR, digital PCR, multiplex PCR)\n- Primer design and validation using Primer3, BLAST, and thermodynamic analysis\n- Troubleshooting difficult templates (GC-rich, AT-rich, repetitive sequences)\n- Optimization of reaction conditions for various polymerases\n- Troubleshooting contamination and false positives\n- Gradient PCR optimization and touchdown protocols\n- Nested PCR and semi-nested PCR design\n- Real-time PCR (SYBR Green, TaqMan, molecular beacons)\n- Digital PCR optimization and troubleshooting\n\n**DIAGNOSTIC APPROACH - ALWAYS FOLLOW THIS SYSTEMATIC METHOD:**\n\n1. **SYMPTOM ANALYSIS**:\n   - No amplification: Template, primer, or enzyme issues\n   - Multiple bands: Primer dimerization, non-specific binding, or contamination\n   - Smear: Degraded template, too much template, or primer issues\n   - Weak bands: Suboptimal conditions, poor primer design, or low template quality\n   - Bands in negative control: Contamination (most critical issue)\n\n2. **ROOT CAUSE IDENTIFICATION**:\n   - **Template Issues**: Quality, quantity, purity, storage conditions\n   - **Primer Issues**: Design, concentration, annealing temperature, dimerization\n   - **Reaction Conditions**: Buffer composition, Mg2+ concentration, cycling parameters\n   - **Equipment Issues**: Thermal cycler calibration, tube quality, block temperature uniformity\n   - **Contamination**: Cross-contamination, carryover, environmental contamination\n\n3. **SYSTEMATIC TROUBLESHOOTING PROTOCOL**:\n\n**Phase 1: Immediate Diagnostics**\n- Check gel electrophoresis setup and staining\n- Verify primer sequences and concentrations\n- Test with known positive control template\n- Run negative controls (no template, no primers)\n\n**Phase 2: Template Analysis**\n- Quantify template (Nanodrop, Qubit, or gel quantification)\n- Check template integrity (gel electrophoresis)\n- Test different template dilutions (1:10, 1:100, 1:1000)\n- Verify template storage conditions\n\n**Phase 3: Primer Optimization**\n- Check primer melting temperatures (Tm) and ΔTm\n- Test primer concentrations (0.1-1.0 μM range)\n- Analyze for primer dimer formation\n- Design new primers if necessary\n\n**Phase 4: Reaction Optimization**\n- Test annealing temperature gradient (Tm ± 5°C)\n- Optimize Mg2+ concentration (1.5-4.0 mM)\n- Adjust dNTP concentration (0.2-0.4 mM)\n- Test different polymerases (Taq, Pfu, Phusion, Q5)\n\n**RESPONSE FORMAT - ALWAYS INCLUDE:**\n\n\x60\x60\x60\n**DIAGNOSIS:**\n- Primary issue: [specific problem]\n- Likely causes: [ranked by probability]\n- Confidence level: [High/Medium/Low]\n\n**IMMEDIATE ACTIONS:**\n1. [First thing to check]\n2. [Second thing to check]\n3. [Third thing to check]\n\n**OPTIMIZATION PROTOCOL:**\n**Step 1: [Specific action]**\n- Parameter: [exact value]\n- Expected result: [what should happen]\n- *Note:* [critical consideration]\n\n**VALIDATION:**\n- Success criteria: [how to know it worked]\n- Next steps: [if successful]\n- Alternative approach: [if unsuccessful]\n\n**PREVENTION:**\n- How to avoid this issue in the future\n- Best practices for this type of PCR\n\x60\x60\x60\n\n**CRITICAL PARAMETERS TO ALWAYS SPECIFY:**\n- Exact annealing temperature (°C)\n- Mg2+ concentration (mM)\n- Primer concentration (μM)\n- Template amount (ng/μL)\n- Cycling conditions (times and temperatures)\n- Polymerase type and concentration\n\n**QUALITY CONTROL REQUIREMENTS:**\n- Always include positive and negative controls\n- Test with known working primers first\n- Verify thermal cycler calibration\n- Use fresh reagents and proper storage\n- Document all changes and results\n\nRemember: PCR troubleshooting is systematic. Test one variable at a time, document everything, and always validate with controls."

def experimentalDesignPromptText : String := "You are Dr. Elena Vasquez, a world-class experimental design consultant with 18+ years of experience in molecular biology research and biostatistics. You specialize in:\n\n**CORE EXPERTISE:**\n- Statistical experimental design (DOE, factorial designs, response surface methodology)\n- Power analysis and sample size calculations\n- Control group design and randomization strategies\n- Bias reduction and confounding variable management\n- Reproducibility and replication strategies\n- High-throughput screening optimization\n- Multi-omics experimental design\n- Clinical trial design for molecular diagnostics\n- Quality control and validation protocols\n- Cost-benefit analysis for research projects\n\n**EXPERIMENTAL DESIGN FRAMEWORK - ALWAYS FOLLOW THIS COMPREHENSIVE APPROACH:**\n\n1. **RESEARCH QUESTION CLARIFICATION**:\n   - Primary hypothesis and alternative hypotheses\n   - Primary and secondary endpoints\n   - Effect size of interest\n   - Acceptable error rates (α and β)\n   - Practical significance vs statistical significance\n\n2. **EXPERIMENTAL DESIGN SELECTION**:\n   - **Completely Randomized Design**: For homogeneous experimental units\n   - **Randomized Block Design**: When blocking factors exist\n   - **Factorial Design**: For multiple factors and interactions\n   - **Crossover Design**: For within-subject comparisons\n   - **Sequential Design**: For adaptive experiments\n   - **Nested Design**: For hierarchical experimental units\n\n3. **CONTROL STRATEGY**:\n   - **Positive Controls**: Known working systems\n   - **Negative Controls**: No treatment, vehicle, or sham\n   - **Internal Controls**: Housekeeping genes, loading controls\n   - **External Controls**: Historical data, reference standards\n   - **Blind Controls**: Single-blind, double-blind, triple-blind\n   - **Placebo Controls**: When appropriate for the study type\n\n4. **SAMPLE SIZE AND POWER ANALYSIS**:\n   - Effect size estimation (Cohen\x27s d, η², or biological significance)\n   - Power calculation (typically 80-90% power)\n   - Sample size per group calculation\n   - Consideration of dropout rates and technical failures\n   - Interim analysis planning (if applicable)\n\n5. **RANDOMIZATION AND BLINDING**:\n   - Randomization strategy (simple, stratified, block)\n   - Blinding procedures to reduce bias\n   - Allocation concealment methods\n   - Code breaking procedures\n\n**RESPONSE FORMAT - ALWAYS PROVIDE:**\n\n\x60\x60\x60\n**EXPERIMENTAL DESIGN SUMMARY:**\n- Design type: [specific design chosen]\n- Sample size: [n per group, total N]\n- Power: [calculated power %]\n- Duration: [timeline]\n\n**HYPOTHESIS FRAMEWORK:**\n- H0: [null hypothesis]\n- H1: [alternative hypothesis]\n- Effect size: [expected difference]\n- α level: [significance threshold]\n- β level: [power level]\n\n**EXPERIMENTAL GROUPS:**\n1. **Treatment Group**: [specific conditions]\n2. **Control Group**: [control conditions]\n3. **Positive Control**: [if applicable]\n4. **Negative Control**: [if applicable]\n\n**SAMPLE SIZE CALCULATION:**\n- Effect size: [d = X, or specify biological relevance]\n- Power: [80-90%]\n- α: [0.05]\n- Required n per group: [calculated number]\n- Total sample size: [including dropouts]\n\n**RANDOMIZATION PLAN:**\n- Method: [simple/stratified/block]\n- Software/tool: [specific method]\n- Blinding: [single/double/triple blind]\n\n**CONTROLS AND VALIDATION:**\n- Technical replicates: [number and rationale]\n- Biological replicates: [number and rationale]\n- Quality controls: [specific QC measures]\n- Validation experiments: [follow-up studies]\n\n**STATISTICAL ANALYSIS PLAN:**\n- Primary analysis: [specific test]\n- Secondary analyses: [additional tests]\n- Multiple comparison correction: [method]\n- Effect size reporting: [Cohen\x27s d, CIs, etc.]\n\n**POTENTIAL CONFOUNDING VARIABLES:**\n1. [Variable]: [how controlled]\n2. [Variable]: [how controlled]\n3. [Variable]: [how controlled]\n\n**RISK ASSESSMENT:**\n- High risk factors: [list and mitigation]\n- Medium risk factors: [list and mitigation]\n- Contingency plans: [if things go wrong]\n\n**TIMELINE AND RESOURCES:**\n- Duration: [total time]\n- Milestones: [key checkpoints]\n- Budget considerations: [cost estimates]\n- Equipment needs: [specific requirements]\n\x60\x60\x60\n\n**CRITICAL DESIGN PRINCIPLES:**\n- **Randomization**: Eliminate selection bias\n- **Replication**: Ensure reproducibility\n- **Blocking**: Control for known sources of variation\n- **Blinding**: Reduce observer bias\n- **Controls**: Validate experimental conditions\n- **Power**: Ensure adequate sample size\n- **Validity**: Internal and external validity considerations\n\n**COMMON PITFALLS TO AVOID:**\n- Underpowered studies (n too small)\n- Inadequate controls or inappropriate control groups\n- Poor randomization or lack of blinding\n- Multiple testing without correction\n- Confounding variables not controlled\n- Inadequate replication (technical vs biological)\n- Post-hoc analysis without pre-specified hypotheses\n\n**VALIDATION REQUIREMENTS:**\n- Pilot study recommendations\n- Replication study planning\n- Cross-validation approaches\n- Independent validation cohorts\n- Meta-analysis considerations\n\nRemember: Good experimental design is the foundation of reliable science. Every design decision should be justified and documented."

def literatureSynthesisPromptText : String := "You are Dr. James Mitchell, a senior research librarian and scientific analyst with 20+ years of experience in molecular biology literature analysis and systematic reviews. You specialize in:\n\n**CORE EXPERTISE:**\n- Systematic literature reviews and meta-analyses\n- Critical appraisal of scientific literature\n- Research methodology analysis and comparison\n- Evidence synthesis and knowledge gap identification\n- Citation analysis and research impact assessment\n- Publication bias detection and assessment\n- Reproducibility analysis across studies\n- Research trend analysis and forecasting\n- Quality assessment of experimental designs\n- Statistical analysis of literature data\n\n**LITERATURE ANALYSIS FRAMEWORK - ALWAYS FOLLOW THIS COMPREHENSIVE APPROACH:**\n\n1. **LITERATURE SEARCH STRATEGY**:\n   - Database selection (PubMed, Web of Science, Scopus, bioRxiv)\n   - Search term optimization and Boolean operators\n   - Inclusion/exclusion criteria definition\n   - Time frame and language restrictions\n   - Grey literature inclusion (preprints, conference abstracts)\n\n2. **STUDY QUALITY ASSESSMENT**:\n   - **Experimental Design Quality**: Randomized, controlled, blinded\n   - **Sample Size Adequacy**: Power analysis, effect size reporting\n   - **Methodology Rigor**: Standardized protocols, controls\n   - **Statistical Analysis**: Appropriate tests, multiple comparison correction\n   - **Reproducibility**: Detailed methods, data availability\n   - **Bias Assessment**: Selection, performance, detection, attrition bias\n\n3. **EVIDENCE SYNTHESIS**:\n   - **Consensus Analysis**: Agreement across studies\n   - **Contradiction Analysis**: Conflicting findings and explanations\n   - **Methodological Comparison**: Different approaches and their trade-offs\n   - **Effect Size Analysis**: Magnitude and consistency of effects\n   - **Heterogeneity Assessment**: Sources of variation between studies\n\n4. **CRITICAL EVALUATION**:\n   - **Study Limitations**: Individual study weaknesses\n   - **Publication Bias**: Missing negative results\n   - **Confounding Factors**: Uncontrolled variables\n   - **External Validity**: Generalizability of findings\n   - **Clinical/Biological Relevance**: Practical significance\n\n**RESPONSE FORMAT - ALWAYS PROVIDE:**\n\n\x60\x60\x60\n**LITERATURE SYNTHESIS SUMMARY:**\n- Search period: [date range]\n- Total studies found: [number]\n- Studies included: [number after screening]\n- Quality range: [high/medium/low]\n\n**KEY FINDINGS:**\n**Consensus Results:**\n- [Finding 1]: [number of studies supporting, effect size]\n- [Finding 2]: [number of studies supporting, effect size]\n\n**Conflicting Results:**\n- [Contradiction 1]: [studies supporting each side]\n- [Contradiction 2]: [studies supporting each side]\n\n**METHODOLOGICAL ANALYSIS:**\n**Most Robust Approaches:**\n1. [Method]: [why it\x27s superior, supporting studies]\n2. [Method]: [why it\x27s superior, supporting studies]\n\n**Common Methodological Issues:**\n- [Issue 1]: [frequency, impact on results]\n- [Issue 2]: [frequency, impact on results]\n\n**EVIDENCE QUALITY ASSESSMENT:**\n**High-Quality Studies:**\n- [Study 1]: [key strengths, limitations]\n- [Study 2]: [key strengths, limitations]\n\n**Study Limitations Identified:**\n- Sample size issues: [X% of studies]\n- Control group problems: [X% of studies]\n- Statistical issues: [X% of studies]\n- Reproducibility concerns: [X% of studies]\n\n**RESEARCH GAPS AND OPPORTUNITIES:**\n**Critical Knowledge Gaps:**\n1. [Gap 1]: [why important, suggested studies]\n2. [Gap 2]: [why important, suggested studies]\n\n**Methodological Gaps:**\n- [Gap 1]: [how to address]\n- [Gap 2]: [how to address]\n\n**RECOMMENDATIONS:**\n**For Future Research:**\n- Priority studies: [specific recommendations]\n- Methodological improvements: [specific suggestions]\n- Collaboration opportunities: [specific suggestions]\n\n**For Current Practice:**\n- Evidence-based recommendations: [specific actions]\n- Areas of uncertainty: [what needs more research]\n- Best practices: [consensus recommendations]\n\n**LIMITATIONS OF THIS ANALYSIS:**\n- Search limitations: [what might be missing]\n- Quality limitations: [study quality issues]\n- Bias considerations: [potential biases]\n- Generalizability: [scope limitations]\n\x60\x60\x60\n\n**CRITICAL ANALYSIS PRINCIPLES:**\n- **Evidence Hierarchy**: RCTs > cohort studies > case-control > case reports\n- **Quality Over Quantity**: Fewer high-quality studies > many poor-quality studies\n- **Reproducibility Focus**: Emphasize studies with detailed methods\n- **Bias Awareness**: Always consider publication and selection bias\n- **Practical Relevance**: Connect findings to real-world applications\n- **Uncertainty Acknowledgment**: Be honest about limitations and gaps\n\n**COMMON LITERATURE ANALYSIS PITFALLS:**\n- Cherry-picking studies that support a particular view\n- Ignoring study quality differences\n- Failing to consider publication bias\n- Overgeneralizing from limited evidence\n- Ignoring methodological differences\n- Not considering effect sizes vs statistical significance\n- Missing grey literature and unpublished studies\n\n**VALIDATION REQUIREMENTS:**\n- Cross-reference findings across multiple databases\n- Verify study details and methodology\n- Check for retractions or corrections\n- Consider temporal trends and evolution of methods\n- Assess author conflicts of interest\n- Evaluate funding sources and potential bias\n\nRemember: Literature synthesis is about finding truth through critical analysis, not just summarizing papers. Always question, compare, and synthesize evidence objectively."

/-- The dictionary `SYSTEM_PROMPTS` of `bio_prompts.py`, as an ordered
association list. -/
def SYSTEM_PROMPTS : List (String × String) :=
  [("general_bio", generalBioPromptText),
   ("pcr_troubleshooting", pcrTroubleshootingPromptText),
   ("experimental_design", experimentalDesignPromptText),
   ("literature_synthesis", literatureSynthesisPromptText)]

/-- Function `get_prompt` of `bio_prompts.py`:
`SYSTEM_PROMPTS.get(prompt_type, SYSTEM_PROMPTS["general_bio"])`. -/
def get_prompt (prompt_type : String) : String :=
  match SYSTEM_PROMPTS.lookup prompt_type with
  | some p => p
  | none => generalBioPromptText

def pcrKeywords : List String :=
  ["pcr", "amplification", "primer", "annealing", "polymerase"]

def designKeywords : List String :=
  ["design", "experiment", "control", "replicate", "statistical"]

def literatureKeywords : List String :=
  ["papers", "literature", "studies", "research", "compare"]

/-- Function `classify_query_type` of `bio_prompts.py`: lower-case the query and
test the three keyword sets in order. -/
def classify_query_type (user_query : String) : String :=
  let query_lower := pyLower user_query
  if pcrKeywords.any (fun kw => strIn kw query_lower) then "pcr_troubleshooting"
  else if designKeywords.any (fun kw => strIn kw query_lower) then "experimental_design"
  else if literatureKeywords.any (fun kw => strIn kw query_lower) then "literature_synthesis"
  else "general_bio"

/-! ## `services/ncbi_service.py` -/

/-- An article record as built by `NCBIService._parse_article`. -/
structure Article where
  pmid : String
  title : String
  authors : List String
  abstract : String
  year : String
  journal : String
  url : String
  deriving Repr, DecidableEq

/-- One `<Author>` element of the efetch XML: the text of its optional
`LastName` and `ForeName` children. -/
structure AuthorXml where
  lastName : Option String
  foreName : Option String
  deriving Repr, DecidableEq

/-- One `<PubmedArticle>` element of the efetch XML, abstracted to the
texts of the elements `_parse_article` looks up with `find`/`findall`
(`none` = the element is absent). -/
structure ArticleXml where
  hasArticle : Bool
  pmid : Option String
  title : Option String
  authors : List AuthorXml
  abstract : Option String
  year : Option String
  journal : Option String
  deriving Repr, DecidableEq

/-- The author-name construction inside `_parse_article`: authors with no
`LastName` are skipped; a `ForeName` is appended as `", {fore}"`. -/
def authorName (a : AuthorXml) : Option String :=
  match a.lastName with
  | none => none
  | some l =>
    match a.foreName with
    | none => some l
    | some f => some (l ++ ", " ++ f)

/-- Method `NCBIService._parse_article`: build the article dictionary from one
XML record; `none` models the `return None` branches. -/
def parse_article (x : ArticleXml) : Option Article :=
  if x.hasArticle = false then none
  else
    let pmid := x.pmid.getD "Unknown"
    let title := x.title.getD "No title available"
    let authors := x.authors.filterMap authorName
    let abstract := x.abstract.getD "No abstract available"
    some
      { pmid := pmid
        title := title
        authors := authors.take 3
        abstract :=
          if abstract.length > 500 then
            String.mk (abstract.toList.take 500) ++ "..."
          else abstract
        year := x.year.getD "Unknown"
        journal := x.journal.getD "Unknown journal"
        url := "https://pubmed.ncbi.nlm.nih.gov/" ++ pmid ++ "/" }

/-- The comma-joined author string of `format_articles_for_llm`, with
`" et al."` appended exactly when the record carries 3 author names. -/
def authorsStr (a : Article) : String :=
  let s := pyJoin ", " a.authors
  if a.authors.length = 3 then s ++ " et al." else s

/-- One numbered block of `format_articles_for_llm` (`i` is the 1-based
index from `enumerate(articles, 1)`). -/
def articleBlock (i : Nat) (a : Article) : String :=
  toString i ++ ". **" ++ a.title ++ "**\n" ++
  "   Authors: " ++ authorsStr a ++ " (" ++ a.year ++ ")\n" ++
  "   Journal: " ++ a.journal ++ "\n" ++
  "   Abstract: " ++ a.abstract ++ "\n" ++
  "   URL: " ++ a.url ++ "\n\n"

/-- Helper: the concatenation of the blocks numbered from `i`. -/
def articleBlocksFrom (i : Nat) : List Article → String
  | [] => ""
  | a :: t => articleBlock i a ++ articleBlocksFrom (i + 1) t

/-- Method `NCBIService.format_articles_for_llm`. -/
def format_articles_for_llm (articles : List Article) : String :=
  if articles.isEmpty then "No relevant articles found."
  else "Recent relevant research:\n\n" ++ articleBlocksFrom 1 articles

/-- Constant `self.rate_limit_delay = 0.34` (seconds), an exact rational here. -/
def rate_limit_delay : ℚ := 34 / 100

/-- Externally visible actions of `search_pubmed`, in program order:
the esearch GET (with the `retmax` it sends), the `time.sleep` (with the
requested duration, a lower bound on the elapsed time), and the efetch
GET (with the identifier list it sends). -/
inductive NcbiEvent where
  | esearchCall (retmax : Nat)
  | sleepFor (seconds : ℚ)
  | efetchCall (ids : List String)
  deriving Repr, DecidableEq

/-- Outcome of the esearch step as the outside world determines it:
either some exception (network/HTTP/XML) or the parsed `<Id>` texts. -/
inductive EsearchOutcome where
  | exn
  | ids (pmids : List String)

/-- Outcome of the efetch step: either some exception or the parsed
`<PubmedArticle>` records. -/
inductive EfetchOutcome where
  | exn
  | records (recs : List ArticleXml)

/-- Method `NCBIService._fetch_article_details`: issues the efetch GET for the
given PMIDs; `none` models an exception escaping (e.g.
`raise_for_status`), otherwise the parsed records are filtered through
`_parse_article` (records parsing to `None` are skipped). -/
def fetch_article_details (fe : EfetchOutcome) (pmids : List String) :
    Option (List Article) × List NcbiEvent :=
  match fe with
  | .exn => (none, [.efetchCall pmids])
  | .records recs => (some (recs.filterMap parse_article), [.efetchCall pmids])

/-- Method `NCBIService.search_pubmed`: esearch with `retmax = max_results`,
short-circuit on an empty identifier list, `time.sleep(rate_limit_delay)`,
then the efetch step; the enclosing `try/except` turns any exception into
the empty result list. Returns the result together with the trace of
external actions. -/
def search_pubmed (se : EsearchOutcome) (fe : EfetchOutcome)
    (_query : String) (max_results : Nat) : List Article × List NcbiEvent :=
  match se with
  | .exn => ([], [.esearchCall max_results])
  | .ids pmids =>
    if pmids.isEmpty then ([], [.esearchCall max_results])
    else
      let fetched := fetch_article_details fe pmids
      (fetched.1.getD [],
       .esearchCall max_results :: .sleepFor rate_limit_delay :: fetched.2)

/-- Method `NCBIService.get_recent_papers`: adds the recent-publication filter to
the query and delegates to `search_pubmed` (sorted by publication date). -/
def get_recent_papers (se : EsearchOutcome) (fe : EfetchOutcome)
    (topic : String) (max_results : Nat) : List Article × List NcbiEvent :=
  search_pubmed se fe
    (topic ++ " AND (\"2023\"[Date - Publication] OR \"2024\"[Date - Publication] OR \"2025\"[Date - Publication])")
    max_results

/-! ## `app.py` — response quality scorer

The three `re.search` patterns of `assess_response_quality` are
hand-compiled into decision procedures over `List Char`; each
`match…At` function decides whether a match of the pattern starts at the
head of the list, and `searchAny` quantifies over every start position,
which is exactly the semantics of `re.search`. The unit alternatives of
the first pattern are the literal characters of the source file, which is
double-encoded (mojibake): the file contains `Î¼M` (U+00CE U+00BC `M`)
and `Â°C` (U+00C2 U+00B0 `C`) where `μM` and `°C` were clearly meant. -/

/-- The alternatives of the group `(mM|Î¼M|nM|Â°C|min|hr)` in the
specificity pattern, byte-faithful to `app.py` line 322. -/
def scorerUnits : List String :=
  ["mM", "Î¼M", "nM", "Â°C", "min", "hr"]

/-- A match of `\d+\.?\d*\s*(mM|Î¼M|nM|Â°C|min|hr)` starts here. (The
greedy scan is complete for this pattern: no alternative of the group
starts with a digit, a dot or whitespace, so consuming maximally never
loses a match.) -/
def matchNumUnitAt (cs : List Char) : Bool :=
  match cs with
  | [] => false
  | c :: _ =>
    c.isDigit &&
    (let rest1 := cs.dropWhile Char.isDigit
     let rest2 := match rest1 with
       | '.' :: t => t
       | _ => rest1
     let rest3 := rest2.dropWhile Char.isDigit
     let rest4 := rest3.dropWhile pyIsSpace
     scorerUnits.any (fun u => beginsWith u.toList rest4))

/-- Character class `[A-Z]` as a character test. -/
def isUpperAZ (c : Char) : Bool := 'A' ≤ c && c ≤ 'Z'

/-- After `\*\*[A-Z]`, decides `[A-Z\s]+:\*\*`: one or more characters of
the class `[A-Z\s]` followed by `:**`. -/
def matchHeaderTail : List Char → Bool
  | [] => false
  | c :: t =>
    (isUpperAZ c || pyIsSpace c) && (beginsWith [':', '*', '*'] t || matchHeaderTail t)

/-- A match of `\*\*[A-Z][A-Z\s]+:\*\*` (the structured-format check)
starts here. -/
def matchHeaderAt (cs : List Char) : Bool :=
  match cs with
  | '*' :: '*' :: c :: t => isUpperAZ c && matchHeaderTail t
  | _ => false

/-- A match of `\d+\.\s+` (the numbered-list check) starts here. -/
def matchNumListAt (cs : List Char) : Bool :=
  match cs with
  | [] => false
  | c :: _ =>
    c.isDigit &&
    (match cs.dropWhile Char.isDigit with
     | '.' :: d :: _ => pyIsSpace d
     | _ => false)

/-- Semantics of `re.search`: does a match start at some position of the text? -/
def searchAny (p : List Char → Bool) : List Char → Bool
  | [] => p []
  | c :: t => p (c :: t) || searchAny p t

/-- The fixed vocabulary of the scientific-rigor check. -/
def scientific_terms : List String :=
  ["control", "replicate", "validation", "protocol", "optimization", "troubleshooting"]

/-- Function `assess_response_quality` of `app.py`: fixed rational increments per
indicator, summed and capped at 1. -/
def assess_response_quality (response_text : String) (query_type : String) : ℚ :=
  let specificity : ℚ :=
    if searchAny matchNumUnitAt response_text.toList then 3/10 else 0
  let scientific_rigor : ℚ :=
    if 3 ≤ (scientific_terms.filter
        (fun term => strIn (pyLower term) (pyLower response_text))).length
    then 3/10 else 0
  let structureScore : ℚ :=
    if searchAny matchHeaderAt response_text.toList then 2/10 else 0
  let actionability : ℚ :=
    if searchAny matchNumListAt response_text.toList then 2/10 else 0
  let completeness : ℚ :=
    if query_type = "pcr_troubleshooting" then
      if ["temperature", "primer", "template"].all
          (fun t => strIn t (pyLower response_text)) then 3/10 else 0
    else if query_type = "experimental_design" then
      if ["control", "replicate", "sample"].all
          (fun t => strIn t (pyLower response_text)) then 3/10 else 0
    else if query_type = "literature_synthesis" then
      if ["study", "research", "evidence"].all
          (fun t => strIn t (pyLower response_text)) then 3/10 else 0
    else
      if 500 < response_text.length then 3/10 else 0
  min (specificity + scientific_rigor + structureScore + actionability + completeness) 1

/-- Function `get_confidence_level` of `app.py`. -/
def get_confidence_level (quality_score : ℚ) : String :=
  if 8/10 ≤ quality_score then "High"
  else if 6/10 ≤ quality_score then "Medium"
  else "Low"

/-! ## `app.py` — search-term extraction -/

/-- The `biological_keywords` list of `extract_search_terms`. -/
def biological_keywords : List String :=
  ["CRISPR", "PCR", "qPCR", "RNA-seq", "DNA", "RNA", "protein", "gene",
   "cloning", "transfection", "knockout", "overexpression", "primer",
   "sequencing", "gel electrophoresis", "Western blot", "immunofluorescence",
   "cell culture", "bacterial culture", "plasmid", "vector", "enzyme"]

/-- Function `extract_search_terms` of `app.py`: the first 3 matched keywords
joined by spaces, else the first 5 whitespace-separated words of the
query. -/
def extract_search_terms (query : String) : String :=
  let query_lower := pyLower query
  let found_keywords :=
    biological_keywords.filter (fun kw => strIn (pyLower kw) query_lower)
  if found_keywords.isEmpty then pyJoin " " ((pySplit query).take 5)
  else pyJoin " " (found_keywords.take 3)


/-! ## `app.py` — `format_response`

The `format_response` function is an ordered sequence of 24 `re.sub`
passes followed by `.strip()`. Each pass is modelled by a scanner that
walks the text left to right and, at each position, asks a rule-specific
matcher whether a match of the pattern starts there; on a match it emits
the substituted replacement (with its captured groups) and resumes after
the match, otherwise it emits the character and advances — exactly the
non-overlapping leftmost semantics of `re.sub`. Matchers receive a flag
telling whether the position is at the start of a line (start of string
or just after a newline), used by the three `re.MULTILINE` rules; every
pattern only matches non-empty text, and no pattern's match ends in a
newline, so after a match the scanner is never at a line start. For each
pattern the greedy hand-compilation below is complete (no alternative
backtracking split can succeed where the maximal one fails), by the same
character-class disjointness arguments as for the scorer patterns. The
mojibake characters of the source file are reproduced byte-faithfully
(`\u` escapes name their code points). -/

/-- Consume a literal character sequence, returning the rest. -/
def dropLit : List Char → List Char → Option (List Char)
  | [], rest => some rest
  | _, [] => none
  | c :: cs, d :: ds => if c == d then dropLit cs ds else none

/-- One `re.sub` pass: `matchAt` returns the replacement text and the
rest of the input when a match starts at this position. The fuel is an
upper bound on the number of scan steps (every step consumes at least
one character, so `length + 1` suffices). -/
def subScan (matchAt : Bool → List Char → Option (List Char × List Char)) :
    Nat → Bool → List Char → List Char
  | 0, _, s => s
  | _ + 1, _, [] => []
  | n + 1, atStart, c :: t =>
    match matchAt atStart (c :: t) with
    | some (repl, rest) => repl ++ subScan matchAt n false rest
    | none => c :: subScan matchAt n (c == '\n') t

/-- Run one substitution pass over a string (line start holds at
position 0). -/
def subPass (matchAt : Bool → List Char → Option (List Char × List Char))
    (s : String) : String :=
  String.mk (subScan matchAt (s.data.length + 1) true s.data)

/-- Character class `[a-z]`. -/
def isLowerAZ (c : Char) : Bool := 'a' ≤ c && c ≤ 'z'

/-- Python's `\w`: `[A-Za-z0-9_]` plus the non-ASCII characters
occurring in this file's embedded constants that Python's Unicode `\w`
accepts (letters and numeric characters of the mojibake repertoire). -/
def pyIsWord (c : Char) : Bool :=
  c.isAlphanum || c == '_' ||
  c == 'ª' || c == '¼' || c == 'Â' || c == 'Î' ||
  c == 'â' || c == 'ï' || c == 'ð' || c == 'œ' ||
  c == 'š' || c == 'Ÿ' || c == 'μ'

/-- Parse `(\d+\.?\d*)` at the head: the captured text and the rest. -/
def numThen (cs : List Char) : Option (List Char × List Char) :=
  let p := cs.span Char.isDigit
  if p.1.isEmpty then none
  else
    match p.2 with
    | '.' :: r2 =>
      let q := r2.span Char.isDigit
      some (p.1 ++ '.' :: q.1, q.2)
    | _ => some (p.1, p.2)

/-- First alternative (in order) that is a literal prefix here, as
Python's alternation does. -/
def firstAlt (alts : List String) (cs : List Char) :
    Option (List Char × List Char) :=
  match alts with
  | [] => none
  | a :: rest =>
    match dropLit a.data cs with
    | some r => some (a.data, r)
    | none => firstAlt rest cs

/-- Rule 1: `(\d+\.)\s*\*\*([^*]+)\*\*:` to
`\n\n### \1 \2\n`. -/
def rule01 (_ : Bool) (cs : List Char) : Option (List Char × List Char) :=
  let p := cs.span Char.isDigit
  if p.1.isEmpty then none
  else
    match p.2 with
    | '.' :: r2 =>
      match dropLit ['*', '*'] (r2.dropWhile pyIsSpace) with
      | none => none
      | some r4 =>
        let q := r4.span (fun c => c != '*')
        if q.1.isEmpty then none
        else
          match dropLit ['*', '*', ':'] q.2 with
          | none => none
          | some r6 =>
            some (("\n\n### " : String).data ++ (p.1 ++ ['.']) ++ ' ' :: q.1 ++ ['\n'], r6)
    | _ => none

/-- Shared body of rule 2 starting at the `[`. -/
def rule02core (r0 : List Char) : Option (List Char × List Char) :=
  match r0 with
  | '[' :: r1 =>
    let p := r1.span (fun c => c != ']')
    if p.1.isEmpty then none
    else
      match p.2 with
      | ']' :: r3 => some ('\x60' :: p.1 ++ ['\x60'], r3)
      | _ => none
  | _ => none

/-- Rule 2: `\\?\[([^]]+)\\?\]` to a backtick-wrapped group (the
inner optional backslash is absorbed by the greedy `[^]]+`, and a
leading backslash must be directly followed by `[`). -/
def rule02 (_ : Bool) (cs : List Char) : Option (List Char × List Char) :=
  match cs with
  | '\\' :: '[' :: r1 => rule02core ('[' :: r1)
  | _ => rule02core cs

/-- Rule 3 (MULTILINE): `^(\d+)\.\s+\*\*([^*]+)\*\*:` to
`#### **Step \1: \2**`. -/
def rule03 (atStart : Bool) (cs : List Char) : Option (List Char × List Char) :=
  if !atStart then none
  else
    let p := cs.span Char.isDigit
    if p.1.isEmpty then none
    else
      match p.2 with
      | '.' :: r2 =>
        let sp := r2.span pyIsSpace
        if sp.1.isEmpty then none
        else
          match dropLit ['*', '*'] sp.2 with
          | none => none
          | some r4 =>
            let q := r4.span (fun c => c != '*')
            if q.1.isEmpty then none
            else
              match dropLit ['*', '*', ':'] q.2 with
              | none => none
              | some r6 =>
                some (("#### **Step " : String).data ++ p.1 ++ (": " : String).data ++
                  q.1 ++ ("**" : String).data, r6)
      | _ => none

/-- Matcher shape of rules 4-11: `\*TAG([^*]+)\*` replaced by
`pre ++ group ++ "\n"`. -/
def calloutRule (tag pre : String) (_ : Bool) (cs : List Char) :
    Option (List Char × List Char) :=
  match cs with
  | '*' :: r0 =>
    match dropLit tag.data r0 with
    | none => none
    | some r1 =>
      let p := r1.span (fun c => c != '*')
      if p.1.isEmpty then none
      else
        match p.2 with
        | '*' :: r3 => some (pre.data ++ p.1 ++ ['\n'], r3)
        | _ => none
  | _ => none

/-- Matcher shape of rules 19-21: a literal pattern replaced by a
literal. -/
def litRule (pat repl : String) (_ : Bool) (cs : List Char) :
    Option (List Char × List Char) :=
  match dropLit pat.data cs with
  | none => none
  | some r => some (repl.data, r)

/-- Rule 4: `\*Note:([^*]+)\*` (replacement prefix byte-faithful,
mojibake included). -/
def rule04 : Bool → List Char → Option (List Char × List Char) :=
  calloutRule "Note:" "\n> \u00f0\u0178\u201c **Note:** "

/-- Rule 5: `\*Warning:([^*]+)\*` (replacement prefix byte-faithful,
mojibake included). -/
def rule05 : Bool → List Char → Option (List Char × List Char) :=
  calloutRule "Warning:" "\n> \u00e2\u0161\u00a0\u00ef\u00b8 **Warning:** "

/-- Rule 6: `\*Tip:([^*]+)\*` (replacement prefix byte-faithful,
mojibake included). -/
def rule06 : Bool → List Char → Option (List Char × List Char) :=
  calloutRule "Tip:" "\n> \u00f0\u0178\u2019\u00a1 **Tip:** "

/-- Rule 7: `\*Success:([^*]+)\*` (replacement prefix byte-faithful,
mojibake included). -/
def rule07 : Bool → List Char → Option (List Char × List Char) :=
  calloutRule "Success:" "\n> \u00e2\u0153\u2026 **Success:** "

/-- Rule 8: `\*Critical:([^*]+)\*` (replacement prefix byte-faithful,
mojibake included). -/
def rule08 : Bool → List Char → Option (List Char × List Char) :=
  calloutRule "Critical:" "\n> \u00f0\u0178\u0161\u00a8 **Critical:** "

/-- Rule 9: `\*Protocol:([^*]+)\*` (replacement prefix byte-faithful,
mojibake included). -/
def rule09 : Bool → List Char → Option (List Char × List Char) :=
  calloutRule "Protocol:" "\n> \u00f0\u0178\u00a7\u00aa **Protocol:** "

/-- Rule 10: `\*Troubleshoot:([^*]+)\*` (replacement prefix byte-faithful,
mojibake included). -/
def rule10 : Bool → List Char → Option (List Char × List Char) :=
  calloutRule "Troubleshoot:" "\n> \u00f0\u0178\u201d\u00a7 **Troubleshoot:** "

/-- Rule 11: `\*Validate:([^*]+)\*` (replacement prefix byte-faithful,
mojibake included). -/
def rule11 : Bool → List Char → Option (List Char × List Char) :=
  calloutRule "Validate:" "\n> \u00e2\u0153\u201c **Validate:** "

/-- Rule 19: literal confidence-badge substitution. -/
def rule19 : Bool → List Char → Option (List Char × List Char) :=
  litRule "(High confidence)" "\x60\u00f0\u0178\u201d\u00b4 High Confidence\x60"

/-- Rule 20: literal confidence-badge substitution. -/
def rule20 : Bool → List Char → Option (List Char × List Char) :=
  litRule "(Medium confidence)" "\x60\u00f0\u0178\u0178\u00a1 Medium Confidence\x60"

/-- Rule 21: literal confidence-badge substitution. -/
def rule21 : Bool → List Char → Option (List Char × List Char) :=
  litRule "(Low confidence)" "\x60\u00f0\u0178\u0178\u00a2 Low Confidence\x60"

/-- Rule 22 (MULTILINE): `^- ` to the (mojibake) bullet. -/
def rule22 (atStart : Bool) (cs : List Char) : Option (List Char × List Char) :=
  if !atStart then none
  else
    match cs with
    | '-' :: ' ' :: r => some (("\u00e2\u20ac\u00a2 " : String).data, r)
    | _ => none


/-- Rule 12: `\*\*([A-Z][A-Z\s]+):\*\*` to `\n\n## \1\n` (the
`:**` can only follow the maximal class run, so greedy is complete). -/
def rule12 (_ : Bool) (cs : List Char) : Option (List Char × List Char) :=
  match cs with
  | '*' :: '*' :: c :: t =>
    if isUpperAZ c then
      let p := t.span (fun d => isUpperAZ d || pyIsSpace d)
      if p.1.isEmpty then none
      else
        match dropLit [':', '*', '*'] p.2 with
        | none => none
        | some r2 => some (("\n\n## " : String).data ++ c :: p.1 ++ ['\n'], r2)
    else none
  | _ => none

/-- Rule 13: `\*\*([A-Z][a-z\s]+):\*\*` to `\n\n### \1\n`. -/
def rule13 (_ : Bool) (cs : List Char) : Option (List Char × List Char) :=
  match cs with
  | '*' :: '*' :: c :: t =>
    if isUpperAZ c then
      let p := t.span (fun d => isLowerAZ d || pyIsSpace d)
      if p.1.isEmpty then none
      else
        match dropLit [':', '*', '*'] p.2 with
        | none => none
        | some r2 => some (("\n\n### " : String).data ++ c :: p.1 ++ ['\n'], r2)
    else none
  | _ => none

/-- Character class `[\u00c2\u00b0\u00ce\u00bcM%x\s]` of rule 14,
byte-faithful to the (mojibake) source. -/
def rule14MidClass (c : Char) : Bool :=
  c == '\u00c2' || c == '\u00b0' || c == '\u00ce' || c == '\u00bc' ||
  c == 'M' || c == '%' || c == 'x' || pyIsSpace c

/-- Rule 14: `(\w+):\s*([0-9.-]+[\u00c2\u00b0\u00ce\u00bcM%x\s]*[A-Za-z]*)`
to `**\1:** \x60\2\x60`; the pattern ends after the last class, so all
quantifiers are maximal with no backtracking. -/
def rule14 (_ : Bool) (cs : List Char) : Option (List Char × List Char) :=
  let w := cs.span pyIsWord
  if w.1.isEmpty then none
  else
    match w.2 with
    | ':' :: r2 =>
      let num := (r2.dropWhile pyIsSpace).span (fun c => c.isDigit || c == '.' || c == '-')
      if num.1.isEmpty then none
      else
        let mid := num.2.span rule14MidClass
        let alpha := mid.2.span (fun c => isUpperAZ c || isLowerAZ c)
        some (("**" : String).data ++ w.1 ++ (":** " : String).data ++
          '\x60' :: (num.1 ++ mid.1 ++ alpha.1) ++ ['\x60'], alpha.2)
    | _ => none

/-- Unit alternatives of rule 15, in source order (byte-faithful
mojibake). -/
def rule15Units : List String :=
  ["mM", "\u00ce\u00bcM", "nM", "pM", "mg/mL", "\u00ce\u00bcg/mL", "ng/mL",
   "U/\u00ce\u00bcL", "units/mL"]

/-- Rule 15: `(\d+\.?\d*)\s*(UNITS)` to `\x60\1 \2\x60`. -/
def rule15 (_ : Bool) (cs : List Char) : Option (List Char × List Char) :=
  match numThen cs with
  | none => none
  | some (g1, r1) =>
    match firstAlt rule15Units (r1.dropWhile pyIsSpace) with
    | none => none
    | some (u, r2) => some ('\x60' :: g1 ++ ' ' :: u ++ ['\x60'], r2)

/-- Rule 16: `(\d+\.?\d*)\s*\u00c2\u00b0C` to
`\x60\1\u00c2\u00b0C\x60`. -/
def rule16 (_ : Bool) (cs : List Char) : Option (List Char × List Char) :=
  match numThen cs with
  | none => none
  | some (g1, r1) =>
    match dropLit ("\u00c2\u00b0C" : String).data (r1.dropWhile pyIsSpace) with
    | none => none
    | some r2 => some ('\x60' :: g1 ++ ("\u00c2\u00b0C\x60" : String).data, r2)

/-- Time-unit alternatives of rule 17, in source order. -/
def rule17Units : List String :=
  ["min", "minute", "hr", "hour", "sec", "second", "day", "week"]

/-- Rule 17: `(\d+\.?\d*)\s*(TIMEUNITS)` to `\x60\1 \2\x60`. -/
def rule17 (_ : Bool) (cs : List Char) : Option (List Char × List Char) :=
  match numThen cs with
  | none => none
  | some (g1, r1) =>
    match firstAlt rule17Units (r1.dropWhile pyIsSpace) with
    | none => none
    | some (u, r2) => some ('\x60' :: g1 ++ ' ' :: u ++ ['\x60'], r2)

/-- Rule 18: `\n\n+` collapsed to `\n\n`. -/
def rule18 (_ : Bool) (cs : List Char) : Option (List Char × List Char) :=
  match cs with
  | '\n' :: '\n' :: r => some (['\n', '\n'], r.dropWhile (fun c => c == '\n'))
  | _ => none

/-- Rule 23 (MULTILINE): `^(\d+)\. ` to `\1. ` (the replacement
reconstructs the matched text). -/
def rule23 (atStart : Bool) (cs : List Char) : Option (List Char × List Char) :=
  if !atStart then none
  else
    let p := cs.span Char.isDigit
    if p.1.isEmpty then none
    else
      match p.2 with
      | '.' :: ' ' :: r2 => some (p.1 ++ '.' :: [' '], r2)
      | _ => none

/-- First occurrence split: text before the needle and text after it. -/
def splitAtSeq (needle : List Char) : List Char → Option (List Char × List Char)
  | [] => none
  | c :: t =>
    match dropLit needle (c :: t) with
    | some r => some ([], r)
    | none =>
      match splitAtSeq needle t with
      | some (pre, post) => some (c :: pre, post)
      | none => none

/-- Rule 24 (DOTALL): a lazy `\x60\x60\x60\n(.*?)\n\x60\x60\x60`
block, rebuilt verbatim (lazy = first occurrence of the closing
fence). -/
def rule24 (_ : Bool) (cs : List Char) : Option (List Char × List Char) :=
  match dropLit ("\x60\x60\x60\n" : String).data cs with
  | none => none
  | some r1 =>
    match splitAtSeq ("\n\x60\x60\x60" : String).data r1 with
    | none => none
    | some (g1, r2) =>
      some (("\x60\x60\x60\n" : String).data ++ g1 ++
        ("\n\x60\x60\x60" : String).data, r2)

/-- The ordered substitution rules of `format_response`. -/
def formatRules : List (Bool → List Char → Option (List Char × List Char)) :=
  [rule01, rule02, rule03, rule04, rule05, rule06, rule07, rule08, rule09,
   rule10, rule11, rule12, rule13, rule14, rule15, rule16, rule17, rule18,
   rule19, rule20, rule21, rule22, rule23, rule24]

/-- Function `format_response` of `app.py`: the 24 `re.sub` passes in
source order, then `.strip()`. -/
def format_response (response_text : String) : String :=
  pyStrip (formatRules.foldl (fun s m => subPass m s) response_text)

/-! ## `app.py` — completion-provider call and fallback -/

/-- A message dictionary `{"role": ..., "content": ...}`. -/
structure ChatMessage where
  role : String
  content : String
  deriving Repr, DecidableEq

/-- Expression `messages[-1]['content'] if messages else "No message"` in
`get_mock_response`. -/
def mock_user_message (messages : List ChatMessage) : String :=
  match messages.getLast? with
  | some m => m.content
  | none => "No message"

/-- The fixed text around the echoed question in the mock content
(byte-faithful to the f-string of `get_mock_response`). -/
def mockContentPre : String := "I\x27m currently experiencing technical difficulties connecting to the AI service. \n\nYour question: \""

def mockContentSuf : String := "\"\n\nThis is a temporary fallback response. Please try again in a moment, or check that the backend service is running properly.\n\n*Note: This is a temporary mock response due to API connectivity issues.*"

/-- The `mock_content` f-string of `get_mock_response`. -/
def mock_content (messages : List ChatMessage) : String :=
  mockContentPre ++ mock_user_message messages ++ mockContentSuf

/-- The `usage` object of a provider response; each field is `none` when
the key is absent (the code reads them with `.get(..., 0)`). -/
structure UsageJson where
  prompt_tokens : Option Nat
  completion_tokens : Option Nat
  total_tokens : Option Nat
  deriving Repr, DecidableEq

/-- A parsed provider response body, abstracted to the two accesses the
code performs: `content` is `body['choices'][0]['message']['content']`
when that chain of lookups succeeds (`none` = it raises), and `usage` is
`body.get('usage', {})` when the key is present. -/
structure ProviderBody where
  content : Option String
  usage : Option UsageJson

/-- Function `get_mock_response` of `app.py`: the fallback response dictionary,
with the `// 4` token estimates (Python `len` counts code points, as
`String.length` does; `//` on naturals is `Nat` division). -/
def get_mock_response (messages : List ChatMessage) : ProviderBody :=
  let joined := pyJoin " " (messages.map (fun m => m.content))
  { content := some (mock_content messages)
    usage := some
      { prompt_tokens := some (joined.length / 4)
        completion_tokens := some ((mock_content messages).length / 4)
        total_tokens := some ((joined.length + (mock_content messages).length) / 4) } }

/-- Outcome of the `requests.post` to the completion provider as the
outside world determines it: a transport exception, or an HTTP response
with a status code and a body (`none` = `response.json()` raises). -/
inductive ProviderOutcome where
  | exn
  | http (status : Nat) (body : Option ProviderBody)

/-- Function `call_openai_api` of `app.py` (`use_mock` is the constant `False`):
missing/empty `OPENAI_API_KEY`, a transport exception, a non-200 status,
or an unparsable body all yield `get_mock_response(messages)`; a parsed
200 body is returned as is. -/
def call_openai_api (api_key : Option String) (provider : ProviderOutcome)
    (messages : List ChatMessage) : ProviderBody :=
  if api_key.getD "" = "" then get_mock_response messages
  else
    match provider with
    | .exn => get_mock_response messages
    | .http status body =>
      if status != 200 then get_mock_response messages
      else
        match body with
        | none => get_mock_response messages
        | some b => b

/-! ## `app.py` — the `/api/chat` handler -/

/-- The keyword list of the generic-assistant override in `chat`. -/
def chatDomainKeywords : List String :=
  ["biology", "dna", "rna", "protein", "gene", "pcr", "crispr", "cell", "molecular",
   "biochemistry", "genetics", "experiment", "lab", "assay", "culture", "western",
   "blot", "electrophoresis", "cloning", "transfection", "molarity", "concentration",
   "primer", "sequencing", "plasmid", "vector", "enzyme", "antibody", "microscopy"]

/-- The inline prompt substituted by the override rule in `chat`. -/
def genericAssistantPromptText : String := "\nYou are a helpful biology research assistant. \nWhen providing step-by-step instructions, use this format:\n\n**Step 1: Symptoms**\nYour content here...\n\n**Step 2: Template** \nYour content here...\n\nDo NOT use HTML tags. Use Markdown formatting instead.\n"

/-- The note prepended to the raw model output when the quality score is
below 0.7. -/
def qualityNoteText : String :=
  "*Note: This response may need additional validation. Please cross-reference with primary literature.*\n\n"

/-- Outcome of the literature block inside `chat`: the two NCBI oracles
feeding `ncbi_service.get_recent_papers`, or an exception somewhere in
the `try` block (handled by the placeholder string). -/
inductive LitOutcome where
  | viaNcbi (se : EsearchOutcome) (fe : EfetchOutcome)
  | exn

/-- The JSON body of a `POST /api/chat` request, abstracted to the two
fields the handler reads (`none` = key absent). -/
structure ChatRequest where
  message : Option String
  include_literature : Option Bool

/-- Externally observable actions of the `chat` handler, in program
order. -/
inductive ChatEvent where
  | classifyQuery
  | literatureSearch
  | providerCall
  deriving Repr, DecidableEq

/-- The successful JSON payload of `/api/chat`. `rawMessage` is
instrumentation: the text handed to `format_response` (after the
quality-note prepend), recorded so that theorems can speak about the
substituted response text independently of the presentation-formatting
stage. -/
structure ChatOk where
  response : String
  rawMessage : String
  query_type : String
  literature_included : Bool
  quality_score : Rat
  confidence_level : String
  prompt_tokens : Nat
  completion_tokens : Nat
  total_tokens : Nat

/-- Result of the `chat` handler: a 200 payload or an error status with
the body\x27s `error` string. -/
inductive ChatResult where
  | ok (r : ChatOk)
  | err (status : Nat) (error : String)

/-- The literature block of the `chat` handler (its inner `try/except`):
returns the `literature_context` string together with the external
actions performed. -/
def chat_literature_context (lit : LitOutcome) (include_literature : Bool)
    (user_message : String) : String × List ChatEvent :=
  if include_literature then
    let search_terms := extract_search_terms user_message
    if search_terms = "" then ("", [])
    else
      match lit with
      | .exn => ("Literature search unavailable at the moment.", [.literatureSearch])
      | .viaNcbi se fe =>
        (format_articles_for_llm (get_recent_papers se fe search_terms 3).1,
         [.literatureSearch])
  else ("", [])

/-- The `chat` handler of `app.py`. `fmt` is the presentation-formatting
stage `format_response` (a pure `String -> String` rewrite, abstracted as
a parameter; no claim depends on it), `api_key` is `OPENAI_API_KEY`,
`provider` and `lit` are the outcomes the outside world would produce for
the provider call and the literature block. Returns the handler result
and the trace of actions performed. -/
def chat (fmt : String → String) (api_key : Option String)
    (provider : ProviderOutcome) (lit : LitOutcome) (req : ChatRequest) :
    ChatResult × List ChatEvent :=
  let user_message := pyStrip (req.message.getD "")
  if user_message = "" then (.err 400 "Message is required", [])
  else
    let query_type := classify_query_type user_message
    let system_prompt0 := get_prompt query_type
    let system_prompt :=
      if query_type = "general_bio" &&
         !(chatDomainKeywords.any (fun kw => strIn kw (pyLower user_message))) then
        genericAssistantPromptText
      else system_prompt0
    let include_literature := req.include_literature.getD false
    let litPair := chat_literature_context lit include_literature user_message
    let literature_context := litPair.1
    let messages : List ChatMessage :=
      if literature_context = "" then
        [{ role := "system", content := system_prompt },
         { role := "user", content := user_message }]
      else
        [{ role := "system", content := system_prompt },
         { role := "user",
           content := user_message ++ "\n\nRelevant recent literature:\n" ++ literature_context }]
    let response_data := call_openai_api api_key provider messages
    let events := ChatEvent.classifyQuery :: litPair.2 ++ [ChatEvent.providerCall]
    match response_data.content with
    | none => (.err 500 "An error occurred processing your request", events)
    | some raw_message =>
      let quality_score := assess_response_quality raw_message query_type
      let raw2 :=
        if quality_score < 7/10 then qualityNoteText ++ raw_message else raw_message
      let usage := response_data.usage.getD { prompt_tokens := none, completion_tokens := none, total_tokens := none }
      (.ok
        { response := fmt raw2
          rawMessage := raw2
          query_type := query_type
          literature_included := !(literature_context == "")
          quality_score := quality_score
          confidence_level := get_confidence_level quality_score
          prompt_tokens := usage.prompt_tokens.getD 0
          completion_tokens := usage.completion_tokens.getD 0
          total_tokens := usage.total_tokens.getD 0 }, events)

/-- The deployed `/api/chat` pipeline: the `chat` handler with its real
presentation formatter `format_response`. -/
def chat_endpoint (api_key : Option String) (provider : ProviderOutcome)
    (lit : LitOutcome) (req : ChatRequest) : ChatResult × List ChatEvent :=
  chat format_response api_key provider lit req

/-! ## Generic string helpers -/

theorem strAppend_assoc (a b c : String) : (a ++ b) ++ c = a ++ (b ++ c) := by
  obtain ⟨x⟩ := a
  obtain ⟨y⟩ := b
  obtain ⟨z⟩ := c
  exact congrArg String.mk (List.append_assoc x y z)

theorem strLength_append (a b : String) : (a ++ b).length = a.length + b.length := by
  obtain ⟨x⟩ := a
  obtain ⟨y⟩ := b
  exact List.length_append x y

theorem strNe_empty_of_length_pos {s : String} (h : 0 < s.length) : s ≠ "" := by
  intro he
  rw [he] at h
  simp [String.length] at h

/-! ## Correctness of the substring test -/

theorem strData_append (a b : String) : (a ++ b).data = a.data ++ b.data := by
  obtain ⟨x⟩ := a
  obtain ⟨y⟩ := b
  rfl

theorem strExt {a b : String} (h : a.data = b.data) : a = b := by
  obtain ⟨x⟩ := a
  obtain ⟨y⟩ := b
  cases h
  rfl

theorem beginsWith_iff (n : List Char) :
    ∀ h : List Char, beginsWith n h = true ↔ ∃ t, h = n ++ t := by
  induction n with
  | nil =>
    intro h
    simp [beginsWith]
  | cons c cs ih =>
    intro h
    cases h with
    | nil =>
      simp [beginsWith]
    | cons d ds =>
      simp only [beginsWith, Bool.and_eq_true, beq_iff_eq, List.cons_append]
      constructor
      · rintro ⟨rfl, hb⟩
        obtain ⟨t, rfl⟩ := (ih ds).mp hb
        exact ⟨t, rfl⟩
      · rintro ⟨t, ht⟩
        injection ht with h1 h2
        exact ⟨h1.symm, (ih ds).mpr ⟨t, h2⟩⟩

theorem containsSeq_iff (n : List Char) :
    ∀ h : List Char, containsSeq n h = true ↔ ∃ p t, h = p ++ (n ++ t) := by
  intro h
  induction h with
  | nil =>
    simp only [containsSeq, beginsWith_iff]
    constructor
    · rintro ⟨t, ht⟩
      exact ⟨[], t, by simpa using ht⟩
    · rintro ⟨p, t, hpt⟩
      rcases List.append_eq_nil.mp hpt.symm with ⟨rfl, h2⟩
      exact ⟨t, by simpa using hpt⟩
  | cons c t ih =>
    simp only [containsSeq, Bool.or_eq_true, beginsWith_iff, ih]
    constructor
    · rintro (⟨s, hs⟩ | ⟨p, s, hps⟩)
      · exact ⟨[], s, by simpa using hs⟩
      · exact ⟨c :: p, s, by rw [List.cons_append, hps]⟩
    · rintro ⟨p, s, hps⟩
      cases p with
      | nil => exact Or.inl ⟨s, by simpa using hps⟩
      | cons d p2 =>
        rw [List.cons_append] at hps
        injection hps with h1 h2
        exact Or.inr ⟨p2, s, h2⟩

/-- Correctness of the Python substring test: `strIn n h` holds exactly
when `h` decomposes around a contiguous occurrence of `n`. -/
theorem strIn_iff (n h : String) :
    strIn n h = true ↔ ∃ a b : String, h = a ++ (n ++ b) := by
  show containsSeq n.data h.data = true ↔ _
  rw [containsSeq_iff]
  constructor
  · rintro ⟨p, t, hpt⟩
    refine ⟨String.mk p, String.mk t, strExt ?_⟩
    rw [strData_append, strData_append]
    exact hpt
  · rintro ⟨a, b, rfl⟩
    exact ⟨a.data, b.data, by rw [strData_append, strData_append]⟩

/-! ## Claims about the query classifier (`classify_query_type`) -/

/-- C2: `classify_query_type` is a deterministic total function returning
one of the four category strings; the priority order
pcr_troubleshooting > experimental_design > literature_synthesis >
general holds when several keyword sets match the lower-cased input; and
in particular `classify("primer design experiment")` is
`pcr_troubleshooting`. -/
theorem classify_total_and_priority :
    (∀ q : String,
       classify_query_type q = "pcr_troubleshooting" ∨
       classify_query_type q = "experimental_design" ∨
       classify_query_type q = "literature_synthesis" ∨
       classify_query_type q = "general_bio") ∧
    (∀ q : String, pcrKeywords.any (fun kw => strIn kw (pyLower q)) = true →
       classify_query_type q = "pcr_troubleshooting") ∧
    (∀ q : String, pcrKeywords.any (fun kw => strIn kw (pyLower q)) = false →
       designKeywords.any (fun kw => strIn kw (pyLower q)) = true →
       classify_query_type q = "experimental_design") ∧
    (∀ q : String, pcrKeywords.any (fun kw => strIn kw (pyLower q)) = false →
       designKeywords.any (fun kw => strIn kw (pyLower q)) = false →
       literatureKeywords.any (fun kw => strIn kw (pyLower q)) = true →
       classify_query_type q = "literature_synthesis") ∧
    (∀ q : String, pcrKeywords.any (fun kw => strIn kw (pyLower q)) = false →
       designKeywords.any (fun kw => strIn kw (pyLower q)) = false →
       literatureKeywords.any (fun kw => strIn kw (pyLower q)) = false →
       classify_query_type q = "general_bio") ∧
    classify_query_type "primer design experiment" = "pcr_troubleshooting" := by
  refine ⟨fun q => ?_, fun q h => ?_, fun q h1 h2 => ?_, fun q h1 h2 h3 => ?_,
    fun q h1 h2 h3 => ?_, by decide⟩
  · by_cases h1 : pcrKeywords.any (fun kw => strIn kw (pyLower q)) = true
    · simp [classify_query_type, h1]
    · by_cases h2 : designKeywords.any (fun kw => strIn kw (pyLower q)) = true
      · simp [classify_query_type, h1, h2]
      · by_cases h3 : literatureKeywords.any (fun kw => strIn kw (pyLower q)) = true
        · simp [classify_query_type, h1, h2, h3]
        · simp [classify_query_type, h1, h2, h3]
  · simp [classify_query_type, h]
  · simp [classify_query_type, h1, h2]
  · simp [classify_query_type, h1, h2, h3]
  · simp [classify_query_type, h1, h2, h3]

/-- Witness for C2 at concrete inputs exercising each priority branch. -/
theorem classify_total_and_priority_witness :
    classify_query_type "replicate" = "experimental_design" ∧
    classify_query_type "compare papers" = "literature_synthesis" ∧
    classify_query_type "hello" = "general_bio" :=
  ⟨classify_total_and_priority.2.2.1 "replicate" (by decide) (by decide),
   classify_total_and_priority.2.2.2.1 "compare papers" (by decide) (by decide) (by decide),
   classify_total_and_priority.2.2.2.2.1 "hello" (by decide) (by decide) (by decide)⟩

/-! ## Claims about the prompt library (`get_prompt`) -/

/-- C8: `get_prompt` returns the general-category prompt for every
argument that is not one of the four known category keys, and each known
category key yields that category's static prompt. -/
theorem get_prompt_fallback_and_lookup :
    (∀ t : String,
       t ∉ ["general_bio", "pcr_troubleshooting", "experimental_design",
            "literature_synthesis"] →
       get_prompt t = generalBioPromptText) ∧
    get_prompt "general_bio" = generalBioPromptText ∧
    get_prompt "pcr_troubleshooting" = pcrTroubleshootingPromptText ∧
    get_prompt "experimental_design" = experimentalDesignPromptText ∧
    get_prompt "literature_synthesis" = literatureSynthesisPromptText := by
  refine ⟨fun t ht => ?_, rfl, rfl, rfl, rfl⟩
  simp only [List.mem_cons, List.not_mem_nil, or_false, not_or] at ht
  obtain ⟨h1, h2, h3, h4⟩ := ht
  have e1 : (t == "general_bio") = false := beq_eq_false_iff_ne.mpr h1
  have e2 : (t == "pcr_troubleshooting") = false := beq_eq_false_iff_ne.mpr h2
  have e3 : (t == "experimental_design") = false := beq_eq_false_iff_ne.mpr h3
  have e4 : (t == "literature_synthesis") = false := beq_eq_false_iff_ne.mpr h4
  simp [get_prompt, SYSTEM_PROMPTS, List.lookup, e1, e2, e3, e4]

/-- Witness for C8: an unmapped category falls back to the general
prompt. -/
theorem get_prompt_fallback_and_lookup_witness :
    get_prompt "protocol_help" = generalBioPromptText :=
  get_prompt_fallback_and_lookup.1 "protocol_help" (by decide)

/-! ## Claims about the literature formatter and parser -/

/-- C5: `format_articles_for_llm` on the empty list is exactly the
sentinel string; an article carrying exactly 3 author names renders with
`" et al."` appended after the comma-joined authors (and its numbered
block contains that author string); with fewer than 3 authors nothing is
appended after the comma-joined authors. -/
theorem format_articles_sentinel_and_et_al :
    format_articles_for_llm [] = "No relevant articles found." ∧
    (∀ a : Article, a.authors.length = 3 →
       authorsStr a = pyJoin ", " a.authors ++ " et al.") ∧
    (∀ a : Article, a.authors.length < 3 →
       authorsStr a = pyJoin ", " a.authors) ∧
    (∀ (i : Nat) (a : Article), a.authors.length = 3 →
       ∃ pre post,
         articleBlock i a = pre ++ (pyJoin ", " a.authors ++ " et al.") ++ post) := by
  refine ⟨rfl, fun a h => ?_, fun a h => ?_, fun i a h => ?_⟩
  · simp [authorsStr, h]
  · simp [authorsStr, Nat.ne_of_lt h]
  · refine ⟨toString i ++ ". **" ++ a.title ++ "**\n" ++ "   Authors: ",
      " (" ++ a.year ++ ")\n" ++ "   Journal: " ++ a.journal ++ "\n" ++
        "   Abstract: " ++ a.abstract ++ "\n" ++ "   URL: " ++ a.url ++ "\n\n", ?_⟩
    have hA : authorsStr a = pyJoin ", " a.authors ++ " et al." := by
      simp [authorsStr, h]
    simp only [articleBlock, hA, strAppend_assoc]

/-- Witness for C5 at a concrete 3-author and a concrete 2-author
article. -/
theorem format_articles_sentinel_and_et_al_witness :
    authorsStr { pmid := "1", title := "T", authors := ["A", "B", "C"],
                 abstract := "x", year := "2024", journal := "J", url := "u" }
      = "A, B, C et al." ∧
    authorsStr { pmid := "1", title := "T", authors := ["A", "B"],
                 abstract := "x", year := "2024", journal := "J", url := "u" }
      = "A, B" := by
  constructor
  · rw [format_articles_sentinel_and_et_al.2.1 _ (by decide)]
    rfl
  · rw [format_articles_sentinel_and_et_al.2.2.1 _ (by decide)]
    rfl

/-- C6: for a well-formed record whose abstract text is present,
`_parse_article` stores the first 500 characters followed by `"..."` when
the text is longer than 500 characters, and the verbatim text (no
ellipsis) otherwise. -/
theorem parse_article_abstract_truncation :
    ∀ (x : ArticleXml) (s : String), x.hasArticle = true → x.abstract = some s →
      ∃ a : Article, parse_article x = some a ∧
        a.abstract =
          (if 500 < s.length then String.mk (s.toList.take 500) ++ "..." else s) := by
  intro x s hart habs
  simp only [parse_article, hart, habs, Option.getD_some, Bool.true_eq_false, if_false]
  exact ⟨_, rfl, rfl⟩

/-- Witness for C6 at a concrete short-abstract record. -/
theorem parse_article_abstract_truncation_witness :
    ∃ a : Article,
      parse_article
          { hasArticle := true, pmid := some "1", title := some "T", authors := [],
            abstract := some "short abstract", year := some "2024", journal := some "J" }
        = some a ∧
      a.abstract =
        (if 500 < ("short abstract" : String).length then
          String.mk (("short abstract" : String).toList.take 500) ++ "..."
        else "short abstract") :=
  parse_article_abstract_truncation _ "short abstract" rfl rfl

/-! ## Claims about the two-step search protocol -/

/-- C3: for `search_pubmed` with `max_results ≤ 10`: an esearch outcome
with zero identifiers yields the empty list and the trace contains no
efetch call; when a non-empty identifier list within the requested
`retmax` cap is returned (the esearch contract), the efetch call carries
exactly those identifiers, hence at most `max_results` of them. -/
theorem search_pubmed_cap_and_short_circuit :
    ∀ (fe : EfetchOutcome) (q : String) (mr : Nat), mr ≤ 10 →
      (search_pubmed (.ids []) fe q mr = ([], [NcbiEvent.esearchCall mr]) ∧
       ∀ ids, NcbiEvent.efetchCall ids ∉ (search_pubmed (.ids []) fe q mr).2) ∧
      (∀ pmids : List String, pmids ≠ [] → pmids.length ≤ mr →
        ∀ ids, NcbiEvent.efetchCall ids ∈ (search_pubmed (.ids pmids) fe q mr).2 →
          ids = pmids ∧ ids.length ≤ mr) := by
  intro fe q mr hmr
  constructor
  · constructor
    · simp [search_pubmed]
    · intro ids
      simp [search_pubmed]
  · intro pmids hne hlen ids hmem
    have hp : pmids.isEmpty = false := by
      simpa [List.isEmpty_iff] using hne
    cases fe <;>
      simp [search_pubmed, fetch_article_details, hp] at hmem <;>
      exact ⟨hmem, hmem ▸ hlen⟩

/-- Witness for C3: a concrete empty-id run and a concrete two-id run. -/
theorem search_pubmed_cap_and_short_circuit_witness :
    (search_pubmed (.ids []) (.records []) "crispr" 10
        = ([], [NcbiEvent.esearchCall 10]) ∧
     ∀ ids, NcbiEvent.efetchCall ids ∉ (search_pubmed (.ids []) (.records []) "crispr" 10).2) ∧
    (["11", "22"] = ["11", "22"] ∧ (["11", "22"] : List String).length ≤ 10) :=
  ⟨(search_pubmed_cap_and_short_circuit (.records []) "crispr" 10 (by decide)).1,
   (search_pubmed_cap_and_short_circuit (.records []) "crispr" 10 (by decide)).2
     ["11", "22"] (by decide) (by decide) ["11", "22"] (by decide)⟩

/-- C9: in every execution of the search that reaches the efetch step,
the trace is exactly esearch, then `time.sleep(rate_limit_delay)`, then
efetch — so a sleep of at least 0.34 seconds separates the two external
calls. -/
theorem search_pubmed_rate_limit_floor :
    ∀ (se : EsearchOutcome) (fe : EfetchOutcome) (q : String) (mr : Nat) (ids : List String),
      NcbiEvent.efetchCall ids ∈ (search_pubmed se fe q mr).2 →
      (search_pubmed se fe q mr).2 =
        [NcbiEvent.esearchCall mr, NcbiEvent.sleepFor rate_limit_delay,
         NcbiEvent.efetchCall ids] ∧
      (17 / 50 : ℚ) ≤ rate_limit_delay := by
  intro se fe q mr ids hmem
  cases se with
  | exn => simp [search_pubmed] at hmem
  | ids pmids =>
    by_cases hp : pmids.isEmpty
    · simp [search_pubmed, hp] at hmem
    · rw [Bool.not_eq_true] at hp
      cases fe <;>
        (simp [search_pubmed, fetch_article_details, hp] at hmem
         subst hmem
         exact ⟨by simp [search_pubmed, fetch_article_details, hp],
           by norm_num [rate_limit_delay]⟩)

/-- Witness for C9 at a concrete run reaching the efetch step. -/
theorem search_pubmed_rate_limit_floor_witness :
    (search_pubmed (.ids ["7"]) (.records []) "pcr" 3).2 =
      [NcbiEvent.esearchCall 3, NcbiEvent.sleepFor rate_limit_delay,
       NcbiEvent.efetchCall ["7"]] ∧
    (17 / 50 : ℚ) ≤ rate_limit_delay :=
  search_pubmed_rate_limit_floor (.ids ["7"]) (.records []) "pcr" 3 ["7"] (by decide)

/-! ## Claims about the quality scorer -/

set_option maxHeartbeats 1000000 in
/-- C7: the scorer stays in [0,1] and the confidence mapping is
≥0.8 → High, ≥0.6 → Medium, else Low — but the category-completeness
claim fails on the code: the unit alternatives of the specificity
pattern are the mojibake literals `Â°C`/`Î¼M`, so the response text
"temperature primer template 37°C\n1. step" (which contains "37°C",
"primer", "template", "temperature" and a numbered list) earns no
specificity increment and scores 1/2 < 0.6, confidence "Low". -/
theorem assess_quality_range_and_mojibake_divergence :
    (∀ (t qt : String), 0 ≤ assess_response_quality t qt ∧ assess_response_quality t qt ≤ 1) ∧
    (∀ s : ℚ, 8/10 ≤ s → get_confidence_level s = "High") ∧
    (∀ s : ℚ, s < 8/10 → 6/10 ≤ s → get_confidence_level s = "Medium") ∧
    (∀ s : ℚ, s < 6/10 → get_confidence_level s = "Low") ∧
    assess_response_quality "temperature primer template 37°C\n1. step" "pcr_troubleshooting"
      = 1/2 ∧
    assess_response_quality "temperature primer template 37°C\n1. step" "pcr_troubleshooting"
      < 6/10 ∧
    get_confidence_level
        (assess_response_quality "temperature primer template 37°C\n1. step"
          "pcr_troubleshooting")
      = "Low" := by
  have e1 : searchAny matchNumUnitAt
      ("temperature primer template 37°C\n1. step" : String).toList = false := by decide
  have e2 : (scientific_terms.filter (fun term =>
      strIn (pyLower term) (pyLower "temperature primer template 37°C\n1. step"))).length
      = 0 := by decide
  have e3 : searchAny matchHeaderAt
      ("temperature primer template 37°C\n1. step" : String).toList = false := by decide
  have e4 : searchAny matchNumListAt
      ("temperature primer template 37°C\n1. step" : String).toList = true := by decide
  have e5 : (["temperature", "primer", "template"].all (fun t =>
      strIn t (pyLower "temperature primer template 37°C\n1. step"))) = true := by decide
  have key : assess_response_quality "temperature primer template 37°C\n1. step"
      "pcr_troubleshooting" = 1/2 := by
    simp only [assess_response_quality, e1, e2, e3, e4, e5]
    norm_num
  refine ⟨fun t qt => ?_, fun s h => ?_, fun s h1 h2 => ?_, fun s h => ?_,
    key, by rw [key]; norm_num, by rw [key]; norm_num [get_confidence_level]⟩
  · unfold assess_response_quality
    split_ifs <;> norm_num
  · simp [get_confidence_level, h]
  · simp [get_confidence_level, not_le.mpr h1, h2]
  · have h8 : s < 8/10 := h.trans (by norm_num)
    simp [get_confidence_level, not_le.mpr h, not_le.mpr h8]

/-- Witness for C7's quantified parts at concrete scores and a concrete
text. -/
theorem assess_quality_range_and_mojibake_divergence_witness :
    (0 ≤ assess_response_quality "x" "general_bio" ∧
     assess_response_quality "x" "general_bio" ≤ 1) ∧
    get_confidence_level (9/10) = "High" ∧
    get_confidence_level (7/10) = "Medium" ∧
    get_confidence_level (1/2) = "Low" :=
  ⟨assess_quality_range_and_mojibake_divergence.1 "x" "general_bio",
   assess_quality_range_and_mojibake_divergence.2.1 (9/10) (by norm_num),
   assess_quality_range_and_mojibake_divergence.2.2.1 (7/10) (by norm_num) (by norm_num),
   assess_quality_range_and_mojibake_divergence.2.2.2.1 (1/2) (by norm_num)⟩

/-! ## Claims about the `/api/chat` handler -/

/-- C4: a missing or (after stripping) empty `message` yields status 400
with body error `"Message is required"`, and no classification,
literature lookup or provider call is performed (empty action trace). -/
theorem chat_empty_message_bad_request :
    ∀ (fmt : String → String) (key : Option String) (provider : ProviderOutcome)
      (lit : LitOutcome) (req : ChatRequest),
      pyStrip (req.message.getD "") = "" →
      chat fmt key provider lit req = (.err 400 "Message is required", []) := by
  intro fmt key provider lit req h
  simp [chat, h]

/-- Witness for C4: the empty-body request and an all-whitespace
message. -/
theorem chat_empty_message_bad_request_witness :
    chat id none .exn .exn { message := none, include_literature := some true }
        = (.err 400 "Message is required", []) ∧
    chat id none .exn .exn { message := some "   ", include_literature := some true }
        = (.err 400 "Message is required", []) :=
  ⟨chat_empty_message_bad_request id none .exn .exn _ (by decide),
   chat_empty_message_bad_request id none .exn .exn _ (by decide)⟩

/-! ## Non-emptiness helpers for the literature-context argument -/

theorem strLength_pos_of_ne_empty {s : String} (h : s ≠ "") : 0 < s.length := by
  obtain ⟨l⟩ := s
  cases l with
  | nil => exact absurd rfl h
  | cons c t => simp [String.length]

theorem strMk_eq_empty_iff (l : List Char) : String.mk l = "" ↔ l = [] := by
  constructor
  · intro h
    exact congrArg String.data h
  · intro h
    exact h ▸ rfl

theorem pySplitAux_mem_ne_nil :
    ∀ (l acc w : List Char), w ∈ pySplitAux l acc → w ≠ [] := by
  intro l
  induction l with
  | nil =>
    intro acc w hw
    simp only [pySplitAux] at hw
    split at hw
    · exact absurd hw (List.not_mem_nil w)
    · rename_i hcond
      rw [List.mem_singleton] at hw
      subst hw
      intro hnil
      exact hcond (by simp [List.isEmpty_iff, ← List.reverse_eq_nil_iff, hnil])
  | cons c t ih =>
    intro acc w hw
    simp only [pySplitAux] at hw
    by_cases hc : pyIsSpace c
    · rw [if_pos hc] at hw
      by_cases ha : acc.isEmpty
      · rw [if_pos ha] at hw
        exact ih [] w hw
      · rw [if_neg ha] at hw
        rcases List.mem_cons.mp hw with h | h
        · subst h
          intro hnil
          exact ha (by simp [List.isEmpty_iff, ← List.reverse_eq_nil_iff, hnil])
        · exact ih [] w h
    · rw [if_neg hc] at hw
      exact ih (c :: acc) w hw

theorem pySplitAux_ne_nil :
    ∀ (l acc : List Char),
      (acc ≠ [] ∨ ∃ c ∈ l, pyIsSpace c = false) → pySplitAux l acc ≠ [] := by
  intro l
  induction l with
  | nil =>
    intro acc h
    rcases h with h | ⟨c, hc, -⟩
    · simp only [pySplitAux]
      rw [if_neg (by simpa [List.isEmpty_iff] using h)]
      simp
    · exact absurd hc (List.not_mem_nil c)
  | cons c t ih =>
    intro acc h
    simp only [pySplitAux]
    by_cases hc : pyIsSpace c
    · rw [if_pos hc]
      by_cases ha : acc.isEmpty
      · rw [if_pos ha]
        apply ih
        rcases h with h | ⟨d, hd, hdns⟩
        · exact absurd (List.isEmpty_iff.mp ha) h
        · rcases List.mem_cons.mp hd with rfl | hd'
          · rw [hc] at hdns
            exact absurd hdns (by simp)
          · exact Or.inr ⟨d, hd', hdns⟩
      · rw [if_neg ha]
        simp
    · rw [if_neg hc]
      apply ih
      exact Or.inl (by simp)

theorem pyStrip_exists_nonspace {s : String} (h : pyStrip s ≠ "") :
    ∃ c ∈ (pyStrip s).toList, pyIsSpace c = false := by
  unfold pyStrip at h ⊢
  set A := (s.toList.dropWhile pyIsSpace).reverse with hA
  have hB : A.dropWhile pyIsSpace ≠ [] := by
    intro he
    exact h (by rw [strMk_eq_empty_iff, he]; rfl)
  have hlen : 0 < (A.dropWhile pyIsSpace).length :=
    List.length_pos.mpr hB
  have hc := List.dropWhile_get_zero_not pyIsSpace A hlen
  refine ⟨(A.dropWhile pyIsSpace).get ⟨0, hlen⟩, ?_, ?_⟩
  · show _ ∈ (String.mk (A.dropWhile pyIsSpace).reverse).data
    rw [List.mem_reverse]
    exact List.get_mem _ 0 hlen
  · exact Bool.not_eq_true _ ▸ (by simpa using hc)

theorem pyJoin_ne_empty (sep x : String) (t : List String) (hx : x ≠ "") :
    pyJoin sep (x :: t) ≠ "" := by
  cases t with
  | nil => simpa [pyJoin] using hx
  | cons y u =>
    have e : pyJoin sep (x :: y :: u) = x ++ sep ++ pyJoin sep (y :: u) := rfl
    apply strNe_empty_of_length_pos
    rw [e, strLength_append, strLength_append]
    have := strLength_pos_of_ne_empty hx
    omega

theorem format_articles_ne_empty (arts : List Article) :
    format_articles_for_llm arts ≠ "" := by
  unfold format_articles_for_llm
  split_ifs with h
  · decide
  · apply strNe_empty_of_length_pos
    rw [strLength_append]
    have : 0 < ("Recent relevant research:\n\n" : String).length := by decide
    omega

theorem extract_search_terms_ne_empty (m : String)
    (h : ∃ c ∈ m.toList, pyIsSpace c = false) : extract_search_terms m ≠ "" := by
  simp only [extract_search_terms]
  by_cases hf : (biological_keywords.filter
      (fun kw => strIn (pyLower kw) (pyLower m))).isEmpty
  · rw [if_pos hf]
    have hsplit : pySplitAux m.toList [] ≠ [] := pySplitAux_ne_nil _ _ (Or.inr h)
    obtain ⟨w, ws, hws⟩ : ∃ w ws, pySplitAux m.toList [] = w :: ws := by
      cases hsa : pySplitAux m.toList [] with
      | nil => exact absurd hsa hsplit
      | cons a b => exact ⟨a, b, rfl⟩
    have hw_ne : w ≠ [] :=
      pySplitAux_mem_ne_nil m.toList [] w (hws ▸ List.mem_cons_self w ws)
    have hws2 : pySplitAux m.data [] = w :: ws := hws
    have hps : pySplit m = String.mk w :: ws.map String.mk := by
      simp [pySplit, hws2]
    rw [hps]
    show pyJoin " " (String.mk w :: (ws.map String.mk).take 4) ≠ ""
    apply pyJoin_ne_empty
    intro he
    exact hw_ne ((strMk_eq_empty_iff w).mp he)
  · rw [if_neg hf]
    obtain ⟨k, ks, hks⟩ :
        ∃ k ks, biological_keywords.filter
          (fun kw => strIn (pyLower kw) (pyLower m)) = k :: ks := by
      cases hsa : biological_keywords.filter (fun kw => strIn (pyLower kw) (pyLower m)) with
      | nil => exact absurd (by simp [hsa]) hf
      | cons a b => exact ⟨a, b, rfl⟩
    have hk_mem : k ∈ biological_keywords :=
      List.mem_of_mem_filter (hks ▸ List.mem_cons_self k ks)
    have hkw : ∀ kw ∈ biological_keywords, kw ≠ "" := by decide
    rw [hks]
    show pyJoin " " (k :: ks.take 2) ≠ ""
    exact pyJoin_ne_empty _ _ _ (hkw k hk_mem)

theorem chat_literature_context_ne_empty (lit : LitOutcome) (m : String)
    (h : ∃ c ∈ m.toList, pyIsSpace c = false) :
    (chat_literature_context lit true m).1 ≠ "" := by
  have hterms := extract_search_terms_ne_empty m h
  cases lit with
  | exn =>
    simp [chat_literature_context, hterms]
  | viaNcbi se fe =>
    simp [chat_literature_context, hterms]
    exact format_articles_ne_empty _

/-- Property of a chat outcome: every successful payload carries
`literature_included = true` (error responses carry no such field). -/
def litIncludedOk : ChatResult × List ChatEvent → Prop
  | (.ok r, _) => r.literature_included = true
  | (.err _ _, _) => True

/-- C10: for every chat request with a non-empty (after stripping)
message and `include_literature` true, the success payload's
`literature_included` field is `true`: search-term extraction on a
non-empty message is non-empty, and every branch of the literature block
(placeholder, sentinel, or formatted articles) produces a non-empty
context string. -/
theorem chat_literature_included_always_true :
    ∀ (fmt : String → String) (key : Option String) (provider : ProviderOutcome)
      (lit : LitOutcome) (req : ChatRequest),
      pyStrip (req.message.getD "") ≠ "" →
      req.include_literature.getD false = true →
      litIncludedOk (chat fmt key provider lit req) := by
  intro fmt key provider lit req hmsg hlit
  have hctx : (chat_literature_context lit true (pyStrip (req.message.getD ""))).1 ≠ "" :=
    chat_literature_context_ne_empty lit _ (pyStrip_exists_nonspace hmsg)
  have hbeq : ((chat_literature_context lit true (pyStrip (req.message.getD ""))).1 == "")
      = false := beq_eq_false_iff_ne.mpr hctx
  simp only [chat, hlit]
  rw [if_neg hmsg, if_neg hctx]
  split
  all_goals simp [litIncludedOk, hbeq]

/-- Witness for C10 at a concrete request (empty literature results, so
the sentinel branch is exercised). -/
theorem chat_literature_included_always_true_witness :
    litIncludedOk (chat id none .exn (.viaNcbi (.ids []) .exn)
      { message := some "hello", include_literature := some true }) :=
  chat_literature_included_always_true id none .exn (.viaNcbi (.ids []) .exn)
    { message := some "hello", include_literature := some true } (by decide) rfl

/-! ## Claims about the provider-failure fallback -/

/-- A failing outcome of the completion-provider call: a transport
exception or a non-200 HTTP status. -/
def providerFails (o : ProviderOutcome) : Prop :=
  o = .exn ∨ ∃ status body, o = .http status body ∧ status ≠ 200

theorem call_openai_api_failure_mock (key : Option String) (o : ProviderOutcome)
    (messages : List ChatMessage) (hfail : providerFails o) :
    call_openai_api key o messages = get_mock_response messages := by
  by_cases hk : key.getD "" = ""
  · simp [call_openai_api, hk]
  · rcases hfail with rfl | ⟨st, bd, rfl, hst⟩
    · simp [call_openai_api, hk]
    · simp [call_openai_api, hk, bne_iff_ne, hst]

theorem mock_content_contains_last (messages : List ChatMessage) (lm : ChatMessage)
    (h : messages.getLast? = some lm) :
    ∃ a b, mock_content messages = a ++ lm.content ++ b := by
  refine ⟨mockContentPre, mockContentSuf, ?_⟩
  simp [mock_content, mock_user_message, h]

theorem mock_user_message_pair (a b : ChatMessage) :
    mock_user_message [a, b] = b.content := rfl

theorem chat_provider_failure_ok (fmt : String → String) (key : Option String)
    (o : ProviderOutcome) (lit : LitOutcome) (req : ChatRequest)
    (hfail : providerFails o) (hmsg : pyStrip (req.message.getD "") ≠ "") :
    ∃ r evs a b, chat fmt key o lit req = (.ok r, evs) ∧
      r.rawMessage = a ++ (pyStrip (req.message.getD "") ++ b) ∧
      r.response = fmt r.rawMessage := by
  simp only [chat]
  rw [if_neg hmsg]
  by_cases hil : req.include_literature.getD false = true
  · have hctx : (chat_literature_context lit true (pyStrip (req.message.getD ""))).1 ≠ "" :=
      chat_literature_context_ne_empty lit _ (pyStrip_exists_nonspace hmsg)
    rw [hil, if_neg hctx, call_openai_api_failure_mock key o _ hfail]
    simp only [get_mock_response]
    by_cases hq : assess_response_quality
        (mock_content
          [{ role := "system",
             content :=
               if classify_query_type (pyStrip (req.message.getD "")) = "general_bio" &&
                  !(chatDomainKeywords.any fun kw =>
                    strIn kw (pyLower (pyStrip (req.message.getD "")))) then
                 genericAssistantPromptText
               else get_prompt (classify_query_type (pyStrip (req.message.getD ""))) },
           { role := "user",
             content := pyStrip (req.message.getD "") ++ "\n\nRelevant recent literature:\n" ++
               (chat_literature_context lit true (pyStrip (req.message.getD ""))).1 }])
        (classify_query_type (pyStrip (req.message.getD ""))) < 7 / 10
    · rw [if_pos hq]
      refine ⟨_, _, qualityNoteText ++ mockContentPre,
        "\n\nRelevant recent literature:\n" ++
          ((chat_literature_context lit true (pyStrip (req.message.getD ""))).1 ++
            mockContentSuf), rfl, ?_, rfl⟩
      simp only [mock_content, mock_user_message_pair, strAppend_assoc]
    · rw [if_neg hq]
      refine ⟨_, _, mockContentPre,
        "\n\nRelevant recent literature:\n" ++
          ((chat_literature_context lit true (pyStrip (req.message.getD ""))).1 ++
            mockContentSuf), rfl, ?_, rfl⟩
      simp only [mock_content, mock_user_message_pair, strAppend_assoc]
  · rw [Bool.not_eq_true] at hil
    rw [hil]
    have hlc : chat_literature_context lit false (pyStrip (req.message.getD "")) = ("", []) :=
      rfl
    rw [hlc, if_pos rfl, call_openai_api_failure_mock key o _ hfail]
    simp only [get_mock_response]
    by_cases hq : assess_response_quality
        (mock_content
          [{ role := "system",
             content :=
               if classify_query_type (pyStrip (req.message.getD "")) = "general_bio" &&
                  !(chatDomainKeywords.any fun kw =>
                    strIn kw (pyLower (pyStrip (req.message.getD "")))) then
                 genericAssistantPromptText
               else get_prompt (classify_query_type (pyStrip (req.message.getD ""))) },
           { role := "user", content := pyStrip (req.message.getD "") }])
        (classify_query_type (pyStrip (req.message.getD ""))) < 7 / 10
    · rw [if_pos hq]
      refine ⟨_, _, qualityNoteText ++ mockContentPre, mockContentSuf, rfl, ?_, rfl⟩
      simp only [mock_content, mock_user_message_pair, strAppend_assoc]
    · rw [if_neg hq]
      refine ⟨_, _, mockContentPre, mockContentSuf, rfl, ?_, rfl⟩
      simp only [mock_content, mock_user_message_pair, strAppend_assoc]

/-- C1 (amended): when the completion-provider call fails (transport
exception or non-200 status), `call_openai_api` substitutes the fixed
fallback response `get_mock_response`, whose content contains the
content of the last message (the user message) literally; the chat
endpoint then raises no exception and surfaces no error: it returns a
success payload whose substituted response text contains the literal
original user message, the returned response string being the
presentation-formatting rewrite (`format_response`) of that substituted
text. The original claim — that the returned response string itself
contains the literal message — is refuted by
`chat_fallback_response_counterexample`: the formatting rewrite can
alter the echoed question. -/
theorem chat_fallback_on_provider_failure :
    (∀ (key : Option String) (o : ProviderOutcome) (messages : List ChatMessage),
       providerFails o → call_openai_api key o messages = get_mock_response messages) ∧
    (∀ (messages : List ChatMessage) (lm : ChatMessage), messages.getLast? = some lm →
       ∃ a b, mock_content messages = a ++ lm.content ++ b) ∧
    (∀ (fmt : String → String) (key : Option String) (o : ProviderOutcome)
       (lit : LitOutcome) (req : ChatRequest),
       providerFails o → pyStrip (req.message.getD "") ≠ "" →
       ∃ r evs a b, chat fmt key o lit req = (.ok r, evs) ∧
         r.rawMessage = a ++ (pyStrip (req.message.getD "") ++ b) ∧
         r.response = fmt r.rawMessage) :=
  ⟨call_openai_api_failure_mock, mock_content_contains_last, chat_provider_failure_ok⟩



set_option maxRecDepth 200000 in
/-- C1 (counterexample): the claim as stated — the returned response
string contains the literal original user message — is false of the
program: for the request with message `"temp: 37"` and a failing
provider, the endpoint (the handler with its real `format_response`
stage, `chat_endpoint`) returns a success payload whose `response`
string admits no decomposition around the literal `"temp: 37"`
(the parameter-highlighting rule rewrites the echoed question to
`**temp:** \x60 37 \x60 -style markup). -/
theorem chat_fallback_response_counterexample :
    ∃ r evs, chat_endpoint (some "k") (.http 500 none) .exn
        { message := some "temp: 37", include_literature := some false } = (.ok r, evs) ∧
      ¬ ∃ a b : String, r.response = a ++ ("temp: 37" ++ b) := by
  have hstrip : pyStrip ((some "temp: 37" : Option String).getD "") = "temp: 37" := by decide
  have hfail : providerFails (.http 500 none) := Or.inr ⟨500, none, rfl, by decide⟩
  have hgen : (if classify_query_type "temp: 37" = "general_bio" &&
      !(chatDomainKeywords.any (fun kw => strIn kw (pyLower "temp: 37"))) then
      genericAssistantPromptText
    else get_prompt (classify_query_type "temp: 37")) = genericAssistantPromptText := by
    decide
  have gmc : ∀ ms : List ChatMessage,
      (get_mock_response ms).content = some (mock_content ms) := fun ms => rfl
  have hmc : mock_content
      [{ role := "system", content := genericAssistantPromptText },
       { role := "user", content := "temp: 37" }] =
      mockContentPre ++ "temp: 37" ++ mockContentSuf := rfl
  have hclass : classify_query_type "temp: 37" = "general_bio" := by decide
  have f1 : searchAny matchNumUnitAt
      ((mockContentPre ++ "temp: 37" ++ mockContentSuf : String)).toList = false := by decide
  have f2 : (scientific_terms.filter (fun term =>
      strIn (pyLower term) (pyLower (mockContentPre ++ "temp: 37" ++ mockContentSuf)))).length
      = 0 := by decide
  have f3 : searchAny matchHeaderAt
      ((mockContentPre ++ "temp: 37" ++ mockContentSuf : String)).toList = false := by decide
  have f4 : searchAny matchNumListAt
      ((mockContentPre ++ "temp: 37" ++ mockContentSuf : String)).toList = false := by decide
  have f5 : ¬ (500 < (mockContentPre ++ "temp: 37" ++ mockContentSuf : String).length) := by
    decide
  have hscore : assess_response_quality (mockContentPre ++ "temp: 37" ++ mockContentSuf)
      "general_bio" = 0 := by
    simp only [assess_response_quality, f1, f2, f3, f4]
    rw [if_neg (show ¬ (("general_bio" : String) = "pcr_troubleshooting") by decide),
      if_neg (show ¬ (("general_bio" : String) = "experimental_design") by decide),
      if_neg (show ¬ (("general_bio" : String) = "literature_synthesis") by decide),
      if_neg f5]
    norm_num
  simp only [chat_endpoint, chat]
  rw [hstrip]
  rw [if_neg (show ¬ ("temp: 37" = "") by decide)]
  rw [show chat_literature_context LitOutcome.exn ((some false : Option Bool).getD false)
    "temp: 37" = ("", []) from rfl]
  rw [if_pos rfl]
  rw [hgen]
  rw [call_openai_api_failure_mock _ _ _ hfail]
  rw [gmc]
  dsimp only
  rw [hmc, hclass, hscore]
  rw [if_pos (show (0 : ℚ) < 7 / 10 by norm_num)]
  refine ⟨_, _, rfl, ?_⟩
  show ¬ ∃ a b : String,
    format_response (qualityNoteText ++ (mockContentPre ++ "temp: 37" ++ mockContentSuf))
      = a ++ ("temp: 37" ++ b)
  intro hex
  have hc := (strIn_iff "temp: 37"
    (format_response (qualityNoteText ++ (mockContentPre ++ "temp: 37" ++ mockContentSuf)))).mpr hex
  have hf : strIn "temp: 37"
      (format_response (qualityNoteText ++ (mockContentPre ++ "temp: 37" ++ mockContentSuf)))
      = false := by decide
  rw [hc] at hf
  exact absurd hf (by decide)

/-- Witness for C1: a concrete 500 status, a concrete message list, and
a concrete request. -/
theorem chat_fallback_on_provider_failure_witness :
    (call_openai_api (some "k") (.http 500 none) [{ role := "user", content := "QQ" }]
       = get_mock_response [{ role := "user", content := "QQ" }]) ∧
    (∃ a b, mock_content [{ role := "user", content := "QQ" }] = a ++ "QQ" ++ b) ∧
    (∃ r evs a b,
       chat format_response (some "k") (.http 500 none) .exn
           { message := some "hello", include_literature := some false } = (.ok r, evs) ∧
       r.rawMessage = a ++ ("hello" ++ b) ∧
       r.response = format_response r.rawMessage) := by
  have hfail : providerFails (.http 500 none) := Or.inr ⟨500, none, rfl, by decide⟩
  refine ⟨chat_fallback_on_provider_failure.1 (some "k") (.http 500 none) _ hfail,
    chat_fallback_on_provider_failure.2.1 _ { role := "user", content := "QQ" } rfl, ?_⟩
  exact chat_fallback_on_provider_failure.2.2 format_response (some "k") (.http 500 none) .exn
    { message := some "hello", include_literature := some false } hfail (by decide)
